import Mathlib

/-!
Verification of the GrantCraft reviewer signal engine
(`src/lib/reviewer/signals.ts`).

The document text is modelled as `List Char`.  JavaScript regular
expressions (the subset actually used by the signal definitions:
single-character classes, greedy `*` / `+` / `{3,}` over character
classes, `?` on groups, ordered alternation, word boundaries `\b`,
multiline `^`, the dot, and the `i` flag) are modelled by the `Rx`
syntax plus a CPS backtracking matcher `mrunO` that mirrors the JS
semantics: greedy quantifiers with backtracking and leftmost, ordered
alternation.  Global (`g`-flag) scanning — used both by
`String.match` in `countMatches` and by the `exec` loop in
`collectEvidence` — is modelled by `scanAux`, which finds successive
non-overlapping matches left to right, advancing past each match (or
by one character after an empty match; no pattern in the registry is
nullable, so that branch is unreachable on registry patterns).

JS `number` values (weights, confidences, bonuses) are modelled as `ℚ`.
-/

namespace GrantCraft

/-- JS `\w` character class: `[A-Za-z0-9_]`. -/
def isWordChar (c : Char) : Bool :=
  ('a' ≤ c && c ≤ 'z') || ('A' ≤ c && c ≤ 'Z') || ('0' ≤ c && c ≤ '9') || c == '_'

/-- JS `\s` character class (the whitespace characters relevant here). -/
def isSpaceChar (c : Char) : Bool :=
  c == ' ' || c == '\t' || c == '\n' || c == '\r' || c == '\x0b' || c == '\x0c'

/-- JS `\d` character class: `[0-9]`. -/
def isDigitChar (c : Char) : Bool :=
  '0' ≤ c && c ≤ '9'

/-- Case folding used for the `i` flag: lower-case the input character. -/
def fold (ci : Bool) (c : Char) : Char :=
  if ci then c.toLower else c

/-- Word state of the character just before the current position
(`none` = start of text, which counts as a non-word position). -/
def isWordO : Option Char → Bool
  | none => false
  | some c => isWordChar c

/-- JS `\b`: holds iff exactly one of (previous char, next char) is a word char. -/
def wordBoundary (p : Option Char) (s : List Char) : Bool :=
  isWordO p != (match s with | [] => false | c :: _ => isWordChar c)

/-- JS `^`: start of input, or just after a newline when the `m` flag is set. -/
def atLineStart (ml : Bool) (p : Option Char) : Bool :=
  match p with
  | none => true
  | some c => ml && c == '\n'

/-- Regular-expression syntax covering the constructs used in
`signals.ts`.  Quantifiers `*` and `+` appear in the source only on
single-character classes, so they are represented as `starC` / `plusC`
over a character predicate; `?` appears on groups and is `opt`. -/
inductive Rx where
  | eps : Rx
  | cc (f : Char → Bool) : Rx
  | seq (a b : Rx) : Rx
  | alt (a b : Rx) : Rx
  | opt (a : Rx) : Rx
  | starC (f : Char → Bool) : Rx
  | plusC (f : Char → Bool) : Rx
  | wb : Rx
  | bol : Rx

/-- Greedy matching of `class*` with backtracking: first try to consume
the current character (longest first), then fall back to stopping here. -/
def starRun (ci : Bool) (f : Char → Bool) (p : Option Char) (s : List Char)
    (k : Option Char → List Char → Option (List Char)) : Option (List Char) :=
  match s with
  | [] => k p []
  | c :: t =>
    if f (fold ci c) then
      match starRun ci f (some c) t k with
      | some r => some r
      | none => k p (c :: t)
    else k p (c :: t)

/-- CPS backtracking matcher.  `p` is the character just before the
current position (for `\b` / `^`), `s` the remaining input, `k` the
continuation; the result is the suffix remaining after a successful
match of the whole pattern (the first one in JS backtracking order). -/
def mrunO (ci ml : Bool) : Rx → Option Char → List Char →
    (Option Char → List Char → Option (List Char)) → Option (List Char)
  | .eps, p, s, k => k p s
  | .cc f, _, s, k =>
    match s with
    | [] => none
    | c :: t => if f (fold ci c) then k (some c) t else none
  | .seq a b, p, s, k => mrunO ci ml a p s (fun p' s' => mrunO ci ml b p' s' k)
  | .alt a b, p, s, k =>
    match mrunO ci ml a p s k with
    | some r => some r
    | none => mrunO ci ml b p s k
  | .opt a, p, s, k =>
    match mrunO ci ml a p s k with
    | some r => some r
    | none => k p s
  | .starC f, p, s, k => starRun ci f p s k
  | .plusC f, _, s, k =>
    match s with
    | [] => none
    | c :: t => if f (fold ci c) then starRun ci f (some c) t k else none
  | .wb, p, s, k => if wordBoundary p s then k p s else none
  | .bol, p, s, k => if atLineStart ml p then k p s else none

/-- A compiled pattern: syntax plus the `i` (case-insensitive) and
`m` (multiline) flags of the source literal. -/
structure Pat where
  rx : Rx
  ci : Bool
  ml : Bool

/-- Attempt a match of `pat` at the current position (top-level
continuation accepts anything and returns the remaining suffix). -/
def matchTop (pat : Pat) (p : Option Char) (s : List Char) : Option (List Char) :=
  mrunO pat.ci pat.ml pat.rx p s (fun _ s' => some s')

/-- Global scan (the `g`-flag `exec` loop / `String.match` counting):
record each successive match `(start, length)` and continue after it,
advancing one character past an empty match.  The fuel argument makes
the recursion structural; `matchesOf` supplies `text.length + 1` fuel,
which is never exhausted since every step advances at least one
character or ends the scan. -/
def scanAux (pat : Pat) : Nat → Option Char → List Char → Nat → List (Nat × Nat)
  | 0, _, _, _ => []
  | fuel + 1, p, s, pos =>
    match matchTop pat p s with
    | some rest =>
      if s.length - rest.length = 0 then
        match s with
        | [] => [(pos, 0)]
        | c :: t => (pos, 0) :: scanAux pat fuel (some c) t (pos + 1)
      else
        (pos, s.length - rest.length) ::
          scanAux pat fuel ((s.take (s.length - rest.length)).getLast?) rest
            (pos + (s.length - rest.length))
    | none =>
      match s with
      | [] => []
      | c :: t => scanAux pat fuel (some c) t (pos + 1)

/-- All matches of a pattern in a text, as `(start index, length)` pairs. -/
def matchesOf (pat : Pat) (text : List Char) : List (Nat × Nat) :=
  scanAux pat (text.length + 1) none text 0

/-- Number of `g`-flag matches of one pattern (`text.match(gRe(pat)).length`). -/
def countPat (pat : Pat) (text : List Char) : Nat :=
  (matchesOf pat text).length

/-- Source `countMatches(text, ...patterns)`: sum of the per-pattern
global match counts. -/
def countMatches (text : List Char) (pats : List Pat) : Nat :=
  (pats.map (fun p => countPat p text)).sum

/-- Trim (JS `String.prototype.trim`): drop whitespace from both ends. -/
def trim (l : List Char) : List Char :=
  ((l.dropWhile isSpaceChar).reverse.dropWhile isSpaceChar).reverse

/-- Leading markdown-marker characters stripped by `getLine`
(the class `[#|>*-]` of `replace(/^[#|>*-]+\s*/, '')`). -/
def isMarker (c : Char) : Bool :=
  c == '#' || c == '|' || c == '>' || c == '*' || c == '-'

/-- Apply `replace(/^[#|>*-]+\s*/, '')`: when the line starts with at
least one marker character, drop the leading run of markers and the
whitespace that follows; otherwise leave the line unchanged. -/
def stripLead (l : List Char) : List Char :=
  match l with
  | [] => []
  | c :: _ => if isMarker c then (l.dropWhile isMarker).dropWhile isSpaceChar else l

/-- Source `getLine(text, pos, maxLen = 120)`: extract the line of text
around position `pos`, trim it, strip leading markdown markers, and
truncate to 120 characters with a trailing ellipsis when longer. -/
def getLine (text : List Char) (pos : Nat) : List Char :=
  let pre := ((text.take pos).reverse.takeWhile (fun c => c != '\n')).reverse
  let post := (text.drop pos).takeWhile (fun c => c != '\n')
  let line := stripLead (trim (pre ++ post))
  if line.length ≤ 120 then line else line.take 119 ++ ['…']

/-- Inner `while ((m = re.exec(text)) !== null)` loop of
`collectEvidence` for one pattern: for every match start index, add the
line snippet when it is non-empty and not yet collected (in the source
the `seen` set always holds exactly the collected evidence, so
membership is checked against the accumulator), and return as soon as
`max` snippets have been collected. -/
def addSnips (text : List Char) (idxs : List Nat) (acc : List (List Char))
    (max : Nat) : List (List Char) :=
  match idxs with
  | [] => acc
  | i :: rest =>
    let snippet := getLine text i
    if snippet ≠ [] ∧ snippet ∉ acc then
      let acc2 := acc ++ [snippet]
      if max ≤ acc2.length then acc2 else addSnips text rest acc2 max
    else addSnips text rest acc max

/-- Outer loop of `collectEvidence`: patterns in declaration order,
stopping as soon as `max` snippets have been collected. -/
def evLoop (text : List Char) (pats : List Pat) (acc : List (List Char))
    (max : Nat) : List (List Char) :=
  match pats with
  | [] => acc
  | p :: ps =>
    let acc2 := addSnips text ((matchesOf p text).map (fun m => m.1)) acc max
    if max ≤ acc2.length then acc2 else evLoop text ps acc2 max

/-- Source `collectEvidence(text, patterns, max = 3)`. -/
def collectEvidence (text : List Char) (pats : List Pat) : List (List Char) :=
  evLoop text pats [] 3

/-- Source `sat(matchCount, saturation)`: `0` when `matchCount <= 0`,
otherwise `min(1.0, matchCount / saturation)`. -/
def sat (matchCount saturation : ℚ) : ℚ :=
  if matchCount ≤ 0 then 0 else min 1 (matchCount / saturation)

/-- The closed set of criteria (source `CriterionId`). -/
inductive CriterionId where
  | excellence : CriterionId
  | impact : CriterionId
  | implementation : CriterionId
deriving DecidableEq

/-- Per-signal, per-document output (source `RawCheckResult`).  The
free-text `detail` field of the source — an explanatory message never
used by any verified property — is not modelled. -/
structure RawCheckResult where
  found : Bool
  confidence : ℚ
  evidence : List (List Char)

/-- A signal definition (source `Signal`). -/
structure Signal where
  id : String
  label : String
  criterion : CriterionId
  weight : ℚ
  requiredForThreshold : Bool
  timeEstimateMinutes : Nat
  check : List Char → RawCheckResult

/-- Character-literal class: the regex atom matching exactly `c`. -/
def chr (c : Char) : Rx := .cc (fun x => x == c)

/-- Explicit character class `[...]` given by a list of members. -/
def cls (l : List Char) : Rx := .cc (fun x => l.contains x)

/-- Literal string: sequence of character atoms. -/
def strRx : List Char → Rx
  | [] => .eps
  | c :: cs => .seq (chr c) (strRx cs)

/-- Concatenation of a list of atoms. -/
def cat : List Rx → Rx
  | [] => .eps
  | [r] => r
  | r :: rs => .seq r (cat rs)

/-- Ordered alternation `(?:a|b|...)` of a list of branches. -/
def altsRx : List Rx → Rx
  | [] => .eps
  | [r] => r
  | r :: rs => .alt r (altsRx rs)

/-- Regex atom `\s*`. -/
def ws : Rx := .starC isSpaceChar

/-- Regex atom `\s+`. -/
def ws1 : Rx := .plusC isSpaceChar

/-- Regex atom `\d*`. -/
def digs : Rx := .starC isDigitChar

/-- Regex atom `\d+`. -/
def digs1 : Rx := .plusC isDigitChar

/-- Regex atom `\d` (single digit). -/
def dig : Rx := .cc isDigitChar

/-- Regex atom `[1-9]`. -/
def d19 : Rx := .cc (fun c => '1' ≤ c && c ≤ '9')

/-- JS `.` (any character but a line terminator), as used in `.*`. -/
def isDotChar (c : Char) : Bool := c != '\n' && c != '\r'

/-- Regex atom `.*`. -/
def dotStar : Rx := .starC isDotChar

/-- Optional literal `s?` (and similar single-char options). -/
def optC (c : Char) : Rx := .opt (chr c)

-- ---------------------------------------------------------------------------
-- EXCELLENCE signals
-- ---------------------------------------------------------------------------

/-- Pattern `/\bO[1-9]\d*\s*[.:)—–\-]/i` of `objectives_listed`. -/
def objP1 : Pat := ⟨cat [.wb, chr 'o', d19, digs, ws, cls ['.', ':', ')', '—', '–', '-']], true, false⟩

/-- Pattern `/^\s*[1-9]\d*\.\s+[Tt]o\s+/m` of `objectives_listed`. -/
def objP2 : Pat := ⟨cat [.bol, ws, d19, digs, chr '.', ws1, cls ['T', 't'], chr 'o', ws1], false, true⟩

/-- Pattern `/\bObjective\s+(?:O\s*)?[1-9]/i` of `objectives_listed`. -/
def objP3 : Pat := ⟨cat [.wb, strRx "objective".data, ws1, .opt (cat [chr 'o', ws]), d19], true, false⟩

/-- Pattern `/\|\s*O[1-9]\d*\s*\|/i` of `objectives_listed`. -/
def objP4 : Pat := ⟨cat [chr '|', ws, chr 'o', d19, digs, ws, chr '|'], true, false⟩

/-- Check of signal `objectives_listed`. -/
def objectives_check (draft : List Char) : RawCheckResult :=
  let n := countMatches draft [objP1, objP2, objP3, objP4]
  { found := decide (0 < n)
    confidence := sat (n : ℚ) 5
    evidence := collectEvidence draft [objP1, objP2, objP3, objP4] }

/-- Signal `objectives_listed`. -/
def objectivesSignal : Signal :=
  { id := "objectives_listed", label := "Numbered objectives"
    criterion := .excellence, weight := 0.22, requiredForThreshold := true
    timeEstimateMinutes := 10, check := objectives_check }

/-- Syntax of pattern `/\bTRL\s*[1-9]/i` of `trl_mentioned` (shared
with `trlP3`, of which it is the literal concatenation prefix). -/
def trlP1rx : Rx := cat [.wb, strRx "trl".data, ws, d19]

/-- Pattern `/\bTRL\s*[1-9]/i` of `trl_mentioned`. -/
def trlP1 : Pat := ⟨trlP1rx, true, false⟩

/-- Pattern `/Technology\s+Readiness\s+Level/i` of `trl_mentioned`. -/
def trlP2 : Pat := ⟨cat [strRx "technology".data, ws1, strRx "readiness".data, ws1, strRx "level".data], true, false⟩

/-- Tail `\s*(?:→|-->?|to)\s*TRL\s*[1-9]` of the progression pattern. -/
def trlProgTail : Rx :=
  cat [ws, altsRx [chr '→', cat [chr '-', chr '-', optC '>'], strRx "to".data],
    ws, strRx "trl".data, ws, d19]

/-- Pattern `/\bTRL\s*[1-9]\s*(?:→|-->?|to)\s*TRL\s*[1-9]/i` of
`trl_mentioned`, written as the concatenation of `trlP1rx` and the tail. -/
def trlP3 : Pat := ⟨.seq trlP1rx trlProgTail, true, false⟩

/-- Check of signal `trl_mentioned`. -/
def trl_check (draft : List Char) : RawCheckResult :=
  let basicMatches := countMatches draft [trlP1, trlP2]
  let hasProgression := decide (0 < countMatches draft [trlP3])
  { found := decide (0 < basicMatches)
    confidence :=
      if hasProgression then min 1 (sat (basicMatches : ℚ) 3 + 0.4)
      else sat (basicMatches : ℚ) 3
    evidence := collectEvidence draft [trlP3, trlP1, trlP2] }

/-- Signal `trl_mentioned`. -/
def trlSignal : Signal :=
  { id := "trl_mentioned", label := "TRL progression stated"
    criterion := .excellence, weight := 0.12, requiredForThreshold := true
    timeEstimateMinutes := 3, check := trl_check }

/-- Pattern `/^#+\s*[\d.]*\s*Methodology/im` of `methodology_described`. -/
def methP1 : Pat :=
  ⟨cat [.bol, .plusC (fun c => c == '#'), ws, .starC (fun c => isDigitChar c || c == '.'),
    ws, strRx "methodology".data], true, true⟩

/-- Pattern `/\b(?:approach|methodology|methods?)\b/i` of `methodology_described`. -/
def methP2 : Pat :=
  ⟨cat [.wb, altsRx [strRx "approach".data, strRx "methodology".data,
    cat [strRx "method".data, optC 's']], .wb], true, false⟩

/-- Pattern `/\bwe\s+(?:will\s+)?(?:use|employ|apply|adopt|implement)\b/i`. -/
def methP3 : Pat :=
  ⟨cat [.wb, strRx "we".data, ws1, .opt (cat [strRx "will".data, ws1]),
    altsRx [strRx "use".data, strRx "employ".data, strRx "apply".data,
      strRx "adopt".data, strRx "implement".data], .wb], true, false⟩

/-- Pattern `/\b(?:algorithm|model|framework|pipeline|protocol|workflow)\b/i`. -/
def methP4 : Pat :=
  ⟨cat [.wb, altsRx [strRx "algorithm".data, strRx "model".data, strRx "framework".data,
    strRx "pipeline".data, strRx "protocol".data, strRx "workflow".data], .wb], true, false⟩

/-- Pattern `/\bvalidat(?:e|ion|ing)\b/i` of `methodology_described`. -/
def methP5 : Pat :=
  ⟨cat [.wb, strRx "validat".data,
    altsRx [strRx "e".data, strRx "ion".data, strRx "ing".data], .wb], true, false⟩

/-- Check of signal `methodology_described`. -/
def methodology_check (draft : List Char) : RawCheckResult :=
  let n := countMatches draft [methP1, methP2, methP3, methP4, methP5]
  { found := decide (0 < n)
    confidence := sat (n : ℚ) 8
    evidence := collectEvidence draft [methP1, methP3, methP4, methP2] }

/-- Signal `methodology_described`. -/
def methodologySignal : Signal :=
  { id := "methodology_described", label := "Methodology described"
    criterion := .excellence, weight := 0.22, requiredForThreshold := true
    timeEstimateMinutes := 20, check := methodology_check }

/-- Pattern `/\bgap\b/i` of `sota_gap_identified`. -/
def sotaP1 : Pat := ⟨cat [.wb, strRx "gap".data, .wb], true, false⟩

/-- Pattern `/\blimitation[s]?\b/i` of `sota_gap_identified`. -/
def sotaP2 : Pat := ⟨cat [.wb, strRx "limitation".data, .opt (cls ['s']), .wb], true, false⟩

/-- Pattern matching current/existing approaches that fail/lack/…
(`/(?:current|existing)\s+(?:approaches?|solutions?|methods?|tools?|systems?)\s+(?:fail|lack|cannot|do\s+not|are\s+(?:unable|insufficient))/i`). -/
def sotaP3 : Pat :=
  ⟨cat [altsRx [strRx "current".data, strRx "existing".data], ws1,
    altsRx [cat [strRx "approache".data, optC 's'], cat [strRx "solution".data, optC 's'],
      cat [strRx "method".data, optC 's'], cat [strRx "tool".data, optC 's'],
      cat [strRx "system".data, optC 's']], ws1,
    altsRx [strRx "fail".data, strRx "lack".data, strRx "cannot".data,
      cat [strRx "do".data, ws1, strRx "not".data],
      cat [strRx "are".data, ws1, altsRx [strRx "unable".data, strRx "insufficient".data]]]],
    true, false⟩

/-- Pattern `/state\s+of\s+(?:the\s+)?art/i` of `sota_gap_identified`. -/
def sotaP4 : Pat :=
  ⟨cat [strRx "state".data, ws1, strRx "of".data, ws1,
    .opt (cat [strRx "the".data, ws1]), strRx "art".data], true, false⟩

/-- Pattern `/\bshortcoming[s]?\b/i` of `sota_gap_identified`. -/
def sotaP5 : Pat := ⟨cat [.wb, strRx "shortcoming".data, .opt (cls ['s']), .wb], true, false⟩

/-- Pattern `/\b(?:address(?:es|ing)?|overcome[s]?|bridge[s]?)\s+(?:this|these|the)\s+(?:gap|limitation|challenge)/i`. -/
def sotaP6 : Pat :=
  ⟨cat [.wb,
    altsRx [cat [strRx "address".data, .opt (altsRx [strRx "es".data, strRx "ing".data])],
      cat [strRx "overcome".data, .opt (cls ['s'])],
      cat [strRx "bridge".data, .opt (cls ['s'])]], ws1,
    altsRx [strRx "this".data, strRx "these".data, strRx "the".data], ws1,
    altsRx [strRx "gap".data, strRx "limitation".data, strRx "challenge".data]], true, false⟩

/-- Check of signal `sota_gap_identified`. -/
def sota_check (draft : List Char) : RawCheckResult :=
  let n := countMatches draft [sotaP1, sotaP2, sotaP3, sotaP4, sotaP5, sotaP6]
  { found := decide (0 < n)
    confidence := sat (n : ℚ) 6
    evidence := collectEvidence draft [sotaP3, sotaP6, sotaP1, sotaP2] }

/-- Signal `sota_gap_identified`. -/
def sotaSignal : Signal :=
  { id := "sota_gap_identified", label := "State-of-art gap identified"
    criterion := .excellence, weight := 0.16, requiredForThreshold := true
    timeEstimateMinutes := 12, check := sota_check }

/-- Pattern `/beyond\s+the\s+(?:current\s+)?state\s+of\s+(?:the\s+)?art/i`. -/
def novP1 : Pat :=
  ⟨cat [strRx "beyond".data, ws1, strRx "the".data, ws1,
    .opt (cat [strRx "current".data, ws1]), strRx "state".data, ws1, strRx "of".data,
    ws1, .opt (cat [strRx "the".data, ws1]), strRx "art".data], true, false⟩

/-- Pattern `/\b(?:novel|first\s+to|first-of-its-kind|pioneering|breakthrough|unprecedented)\b/i`. -/
def novP2 : Pat :=
  ⟨cat [.wb, altsRx [strRx "novel".data, cat [strRx "first".data, ws1, strRx "to".data],
    strRx "first-of-its-kind".data, strRx "pioneering".data, strRx "breakthrough".data,
    strRx "unprecedented".data], .wb], true, false⟩

/-- Pattern `/\badvances?\s+beyond\b/i` of `novelty_claim`. -/
def novP3 : Pat :=
  ⟨cat [.wb, strRx "advance".data, optC 's', ws1, strRx "beyond".data, .wb], true, false⟩

/-- Pattern `/\binnovati(?:ve|on)\b/i` of `novelty_claim`. -/
def novP4 : Pat :=
  ⟨cat [.wb, strRx "innovati".data, altsRx [strRx "ve".data, strRx "on".data], .wb], true, false⟩

/-- Pattern `/\bdiffers?\s+from\s+(?:existing|current|prior)/i` of `novelty_claim`. -/
def novP5 : Pat :=
  ⟨cat [.wb, strRx "differ".data, optC 's', ws1, strRx "from".data, ws1,
    altsRx [strRx "existing".data, strRx "current".data, strRx "prior".data]], true, false⟩

/-- Check of signal `novelty_claim`. -/
def novelty_check (draft : List Char) : RawCheckResult :=
  let n := countMatches draft [novP1, novP2, novP3, novP4, novP5]
  { found := decide (0 < n)
    confidence := sat (n : ℚ) 4
    evidence := collectEvidence draft [novP1, novP3, novP5, novP2] }

/-- Signal `novelty_claim`. -/
def noveltySignal : Signal :=
  { id := "novelty_claim", label := "Novelty claim made"
    criterion := .excellence, weight := 0.12, requiredForThreshold := false
    timeEstimateMinutes := 5, check := novelty_check }

/-- Pattern `/success\s+criteri/i` of `success_criteria`. -/
def succP1 : Pat := ⟨cat [strRx "success".data, ws1, strRx "criteri".data], true, false⟩

/-- Pattern `/[≥≤<>]\s*\d+\s*%/` of `success_criteria`. -/
def succP2 : Pat := ⟨cat [cls ['≥', '≤', '<', '>'], ws, digs1, ws, chr '%'], false, false⟩

/-- Pattern `/\btarget\s+(?:of\s+)?[≥≤]?\s*\d+/i` of `success_criteria`. -/
def succP3 : Pat :=
  ⟨cat [.wb, strRx "target".data, ws1, .opt (cat [strRx "of".data, ws1]),
    .opt (cls ['≥', '≤']), ws, digs1], true, false⟩

/-- Pattern `/\baccuracy\s+of\s+\d+/i` of `success_criteria`. -/
def succP4 : Pat :=
  ⟨cat [.wb, strRx "accuracy".data, ws1, strRx "of".data, ws1, digs1], true, false⟩

/-- Pattern `/validation\s+criteri/i` of `success_criteria`. -/
def succP5 : Pat := ⟨cat [strRx "validation".data, ws1, strRx "criteri".data], true, false⟩

/-- Pattern `/\bachiev(?:e|ing)\s+[≥≤]?\s*\d+/i` of `success_criteria`. -/
def succP6 : Pat :=
  ⟨cat [.wb, strRx "achiev".data, altsRx [strRx "e".data, strRx "ing".data], ws1,
    .opt (cls ['≥', '≤']), ws, digs1], true, false⟩

/-- Check of signal `success_criteria`. -/
def success_check (draft : List Char) : RawCheckResult :=
  let n := countMatches draft [succP1, succP2, succP3, succP4, succP5, succP6]
  { found := decide (0 < n)
    confidence := sat (n : ℚ) 5
    evidence := collectEvidence draft [succP2, succP3, succP4, succP6] }

/-- Signal `success_criteria`. -/
def successSignal : Signal :=
  { id := "success_criteria", label := "Quantified success criteria"
    criterion := .excellence, weight := 0.10, requiredForThreshold := false
    timeEstimateMinutes := 8, check := success_check }

/-- Pattern `/\balternative\s+(?:approach|method|option|strategy)/i`. -/
def altP1 : Pat :=
  ⟨cat [.wb, strRx "alternative".data, ws1, altsRx [strRx "approach".data,
    strRx "method".data, strRx "option".data, strRx "strategy".data]], true, false⟩

/-- Pattern `/\bwe\s+considered\b/i` of `alternative_approaches`. -/
def altP2 : Pat :=
  ⟨cat [.wb, strRx "we".data, ws1, strRx "considered".data, .wb], true, false⟩

/-- Pattern `/\b(?:rather|instead)\s+than\b/i` of `alternative_approaches`. -/
def altP3 : Pat :=
  ⟨cat [.wb, altsRx [strRx "rather".data, strRx "instead".data], ws1,
    strRx "than".data, .wb], true, false⟩

/-- Pattern `/\b(?:rejected|discarded|not\s+chosen)\s+(?:because|as|since|due)/i`. -/
def altP4 : Pat :=
  ⟨cat [.wb, altsRx [strRx "rejected".data, strRx "discarded".data,
    cat [strRx "not".data, ws1, strRx "chosen".data]], ws1,
    altsRx [strRx "because".data, strRx "as".data, strRx "since".data,
      strRx "due".data]], true, false⟩

/-- Pattern `/\bcompared\s+(?:to|with)\s+(?:alternative|existing|other)/i`. -/
def altP5 : Pat :=
  ⟨cat [.wb, strRx "compared".data, ws1, altsRx [strRx "to".data, strRx "with".data],
    ws1, altsRx [strRx "alternative".data, strRx "existing".data, strRx "other".data]],
    true, false⟩

/-- Check of signal `alternative_approaches`. -/
def alternative_check (draft : List Char) : RawCheckResult :=
  let n := countMatches draft [altP1, altP2, altP3, altP4, altP5]
  { found := decide (0 < n)
    confidence := sat (n : ℚ) 3
    evidence := collectEvidence draft [altP1, altP2, altP3, altP4] }

/-- Signal `alternative_approaches`. -/
def alternativeSignal : Signal :=
  { id := "alternative_approaches", label := "Alternative approaches discussed"
    criterion := .excellence, weight := 0.06, requiredForThreshold := false
    timeEstimateMinutes := 5, check := alternative_check }

-- ---------------------------------------------------------------------------
-- IMPACT signals
-- ---------------------------------------------------------------------------

/-- Pattern `/expected\s+outcome/i` of `outcomes_linked`. -/
def outP1 : Pat := ⟨cat [strRx "expected".data, ws1, strRx "outcome".data], true, false⟩

/-- Pattern `/call\s+(?:expected|topic)\s+outcome/i` of `outcomes_linked`. -/
def outP2 : Pat :=
  ⟨cat [strRx "call".data, ws1, altsRx [strRx "expected".data, strRx "topic".data],
    ws1, strRx "outcome".data], true, false⟩

/-- Pattern `/contributes?\s+to\s+(?:the\s+)?(?:call|programme|work\s+programme)/i`. -/
def outP3 : Pat :=
  ⟨cat [strRx "contribute".data, optC 's', ws1, strRx "to".data, ws1,
    .opt (cat [strRx "the".data, ws1]),
    altsRx [strRx "call".data, strRx "programme".data,
      cat [strRx "work".data, ws1, strRx "programme".data]]], true, false⟩

/-- Pattern `/\boutcome\s+[O\d]+/i` of `outcomes_linked`. -/
def outP4 : Pat :=
  ⟨cat [.wb, strRx "outcome".data, ws1,
    .plusC (fun c => c == 'o' || isDigitChar c)], true, false⟩

/-- Pattern `/\bdelivers?\s+(?:the\s+)?(?:following\s+)?outcome/i`. -/
def outP5 : Pat :=
  ⟨cat [.wb, strRx "deliver".data, optC 's', ws1, .opt (cat [strRx "the".data, ws1]),
    .opt (cat [strRx "following".data, ws1]), strRx "outcome".data], true, false⟩

/-- Pattern `/^#+\s*[\d.]*\s*(?:Expected\s+)?Outcome/im` of `outcomes_linked`. -/
def outP6 : Pat :=
  ⟨cat [.bol, .plusC (fun c => c == '#'), ws, .starC (fun c => isDigitChar c || c == '.'),
    ws, .opt (cat [strRx "expected".data, ws1]), strRx "outcome".data], true, true⟩

/-- Check of signal `outcomes_linked`. -/
def outcomes_check (draft : List Char) : RawCheckResult :=
  let n := countMatches draft [outP1, outP2, outP3, outP4, outP5, outP6]
  { found := decide (0 < n)
    confidence := sat (n : ℚ) 5
    evidence := collectEvidence draft [outP2, outP3, outP6, outP1] }

/-- Signal `outcomes_linked`. -/
def outcomesSignal : Signal :=
  { id := "outcomes_linked", label := "Outcomes linked to call"
    criterion := .impact, weight := 0.20, requiredForThreshold := true
    timeEstimateMinutes := 10, check := outcomes_check }

/-- Pattern `/\|\s*(?:Indicator|KPI|Measure|Metric)\s*\|/i` of `kpi_table`. -/
def kpiP1 : Pat :=
  ⟨cat [chr '|', ws, altsRx [strRx "indicator".data, strRx "kpi".data,
    strRx "measure".data, strRx "metric".data], ws, chr '|'], true, false⟩

/-- Pattern `/\|\s*Baseline\s*\|/i` of `kpi_table`. -/
def kpiP2 : Pat := ⟨cat [chr '|', ws, strRx "baseline".data, ws, chr '|'], true, false⟩

/-- Pattern `/\|\s*Target\s*\|/i` of `kpi_table`. -/
def kpiP3 : Pat := ⟨cat [chr '|', ws, strRx "target".data, ws, chr '|'], true, false⟩

/-- Pattern `/\bKPI\b/` (case-sensitive) of `kpi_table`. -/
def kpiP4 : Pat := ⟨cat [.wb, strRx "KPI".data, .wb], false, false⟩

/-- Pattern `/key\s+performance\s+indicator/i` of `kpi_table`. -/
def kpiP5 : Pat :=
  ⟨cat [strRx "key".data, ws1, strRx "performance".data, ws1,
    strRx "indicator".data], true, false⟩

/-- Pattern `/[≥≤]\s*\d+\s*%/` of `kpi_table`. -/
def kpiP6 : Pat := ⟨cat [cls ['≥', '≤'], ws, digs1, ws, chr '%'], false, false⟩

/-- Pattern `/\|\s*\d+[,.]?\d*\s*\|/` of `kpi_table`. -/
def kpiP7 : Pat :=
  ⟨cat [chr '|', ws, digs1, .opt (cls [',', '.']), digs, ws, chr '|'], false, false⟩

/-- Check of signal `kpi_table`. -/
def kpi_check (draft : List Char) : RawCheckResult :=
  let n := countMatches draft [kpiP1, kpiP2, kpiP3, kpiP4, kpiP5, kpiP6, kpiP7]
  let hasTable := decide (0 < countMatches draft [kpiP1])
  let hasBase := decide (0 < countMatches draft [kpiP2])
  let hasTarget := decide (0 < countMatches draft [kpiP3])
  let tableBonus : ℚ := if hasBase && hasTarget then 0.3 else if hasTable then 0.15 else 0
  { found := decide (0 < n)
    confidence := min 1 (sat (n : ℚ) 6 + tableBonus)
    evidence := collectEvidence draft [kpiP1, kpiP2, kpiP3, kpiP6] }

/-- Signal `kpi_table`. -/
def kpiSignal : Signal :=
  { id := "kpi_table", label := "KPI table with targets"
    criterion := .impact, weight := 0.20, requiredForThreshold := true
    timeEstimateMinutes := 8, check := kpi_check }

/-- Pattern `/\bexploit(?:ation|ing|ed)?\b/i` of `exploitation_plan`. -/
def expP1 : Pat :=
  ⟨cat [.wb, strRx "exploit".data,
    .opt (altsRx [strRx "ation".data, strRx "ing".data, strRx "ed".data]), .wb], true, false⟩

/-- Pattern `/\bcommerciali(?:s|z)(?:e|ation|ing)\b/i` of `exploitation_plan`. -/
def expP2 : Pat :=
  ⟨cat [.wb, strRx "commerciali".data, altsRx [strRx "s".data, strRx "z".data],
    altsRx [strRx "e".data, strRx "ation".data, strRx "ing".data], .wb], true, false⟩

/-- Pattern `/\bIP\s+(?:strategy|plan|ownership|rights|protection)\b/i`. -/
def expP3 : Pat :=
  ⟨cat [.wb, strRx "ip".data, ws1, altsRx [strRx "strategy".data, strRx "plan".data,
    strRx "ownership".data, strRx "rights".data, strRx "protection".data], .wb], true, false⟩

/-- Pattern `/\bpatent\b/i` of `exploitation_plan`. -/
def expP4 : Pat := ⟨cat [.wb, strRx "patent".data, .wb], true, false⟩

/-- Pattern `/\blicens(?:e|ing|ing\s+strategy)\b/i` of `exploitation_plan`. -/
def expP5 : Pat :=
  ⟨cat [.wb, strRx "licens".data, altsRx [strRx "e".data, strRx "ing".data,
    cat [strRx "ing".data, ws1, strRx "strategy".data]], .wb], true, false⟩

/-- Pattern `/\bmarket\s+(?:entry|potential|opportunity|size|uptake)\b/i`. -/
def expP6 : Pat :=
  ⟨cat [.wb, strRx "market".data, ws1, altsRx [strRx "entry".data,
    strRx "potential".data, strRx "opportunity".data, strRx "size".data,
    strRx "uptake".data], .wb], true, false⟩

/-- Pattern `/exploitation\s+(?:plan|strategy|route|roadmap)/i` of `exploitation_plan`. -/
def expP7 : Pat :=
  ⟨cat [strRx "exploitation".data, ws1, altsRx [strRx "plan".data,
    strRx "strategy".data, strRx "route".data, strRx "roadmap".data]], true, false⟩

/-- Check of signal `exploitation_plan`. -/
def exploitation_check (draft : List Char) : RawCheckResult :=
  let n := countMatches draft [expP1, expP2, expP3, expP4, expP5, expP6, expP7]
  { found := decide (0 < n)
    confidence := sat (n : ℚ) 5
    evidence := collectEvidence draft [expP7, expP3, expP2, expP6] }

/-- Signal `exploitation_plan`. -/
def exploitationSignal : Signal :=
  { id := "exploitation_plan", label := "Exploitation / IP plan"
    criterion := .impact, weight := 0.16, requiredForThreshold := true
    timeEstimateMinutes := 10, check := exploitation_check }

/-- Pattern `/\bdisseminat(?:e|ion|ing)\b/i` of `dissemination_plan`. -/
def dissP1 : Pat :=
  ⟨cat [.wb, strRx "disseminat".data, altsRx [strRx "e".data, strRx "ion".data,
    strRx "ing".data], .wb], true, false⟩

/-- Pattern `/\bpublication[s]?\b/i` of `dissemination_plan`. -/
def dissP2 : Pat := ⟨cat [.wb, strRx "publication".data, .opt (cls ['s']), .wb], true, false⟩

/-- Pattern `/\bconference[s]?\b/i` of `dissemination_plan`. -/
def dissP3 : Pat := ⟨cat [.wb, strRx "conference".data, .opt (cls ['s']), .wb], true, false⟩

/-- Pattern `/open\s+access/i` of `dissemination_plan`. -/
def dissP4 : Pat := ⟨cat [strRx "open".data, ws1, strRx "access".data], true, false⟩

/-- Pattern `/target\s+(?:journal|venue|conference)/i` of `dissemination_plan`. -/
def dissP5 : Pat :=
  ⟨cat [strRx "target".data, ws1, altsRx [strRx "journal".data, strRx "venue".data,
    strRx "conference".data]], true, false⟩

/-- Pattern `/\|\s*(?:Activity|Dissemination|Communication)\s*\|/i`. -/
def dissP6 : Pat :=
  ⟨cat [chr '|', ws, altsRx [strRx "activity".data, strRx "dissemination".data,
    strRx "communication".data], ws, chr '|'], true, false⟩

/-- Pattern `/peer[-\s]reviewed/i` of `dissemination_plan`. -/
def dissP7 : Pat :=
  ⟨cat [strRx "peer".data, .cc (fun c => c == '-' || isSpaceChar c),
    strRx "reviewed".data], true, false⟩

/-- Check of signal `dissemination_plan`. -/
def dissemination_check (draft : List Char) : RawCheckResult :=
  let n := countMatches draft [dissP1, dissP2, dissP3, dissP4, dissP5, dissP6, dissP7]
  { found := decide (0 < n)
    confidence := sat (n : ℚ) 7
    evidence := collectEvidence draft [dissP5, dissP6, dissP4, dissP1] }

/-- Signal `dissemination_plan`. -/
def disseminationSignal : Signal :=
  { id := "dissemination_plan", label := "Dissemination plan"
    criterion := .impact, weight := 0.16, requiredForThreshold := true
    timeEstimateMinutes := 8, check := dissemination_check }

/-- Pattern `/\bstakeholder[s]?\b/i` of `stakeholders_named`. -/
def stakP1 : Pat := ⟨cat [.wb, strRx "stakeholder".data, .opt (cls ['s']), .wb], true, false⟩

/-- Pattern `/\bend[-\s]user[s]?\b/i` of `stakeholders_named`. -/
def stakP2 : Pat :=
  ⟨cat [.wb, strRx "end".data, .cc (fun c => c == '-' || isSpaceChar c),
    strRx "user".data, .opt (cls ['s']), .wb], true, false⟩

/-- Pattern `/\bbeneficiar(?:y|ies)\b/i` of `stakeholders_named`. -/
def stakP3 : Pat :=
  ⟨cat [.wb, strRx "beneficiar".data, altsRx [strRx "y".data, strRx "ies".data], .wb],
    true, false⟩

/-- Pattern `/\btarget\s+(?:group|audience|user|community)[s]?\b/i`. -/
def stakP4 : Pat :=
  ⟨cat [.wb, strRx "target".data, ws1, altsRx [strRx "group".data,
    strRx "audience".data, strRx "user".data, strRx "community".data],
    .opt (cls ['s']), .wb], true, false⟩

/-- Pattern `/\bpolicymaker[s]?\b|\bpolicy\s+maker[s]?\b/i` of `stakeholders_named`. -/
def stakP5 : Pat :=
  ⟨.alt (cat [.wb, strRx "policymaker".data, .opt (cls ['s']), .wb])
    (cat [.wb, strRx "policy".data, ws1, strRx "maker".data, .opt (cls ['s']), .wb]),
    true, false⟩

/-- Pattern `/\bfarmer[s]?\b|\bclinician[s]?\b|\bpatient[s]?\b|\bSME[s]?\b/i`. -/
def stakP6 : Pat :=
  ⟨altsRx [cat [.wb, strRx "farmer".data, .opt (cls ['s']), .wb],
    cat [.wb, strRx "clinician".data, .opt (cls ['s']), .wb],
    cat [.wb, strRx "patient".data, .opt (cls ['s']), .wb],
    cat [.wb, strRx "sme".data, .opt (cls ['s']), .wb]], true, false⟩

/-- Check of signal `stakeholders_named`. -/
def stakeholders_check (draft : List Char) : RawCheckResult :=
  let n := countMatches draft [stakP1, stakP2, stakP3, stakP4, stakP5, stakP6]
  { found := decide (0 < n)
    confidence := sat (n : ℚ) 5
    evidence := collectEvidence draft [stakP1, stakP2, stakP3, stakP4] }

/-- Signal `stakeholders_named`. -/
def stakeholdersSignal : Signal :=
  { id := "stakeholders_named", label := "Stakeholders named"
    criterion := .impact, weight := 0.14, requiredForThreshold := false
    timeEstimateMinutes := 5, check := stakeholders_check }

/-- Pattern `/open\s+access/i` of `open_access_commitment`. -/
def oaP1 : Pat := ⟨cat [strRx "open".data, ws1, strRx "access".data], true, false⟩

/-- Pattern `/\bCC\s+BY\b/` (case-sensitive) of `open_access_commitment`. -/
def oaP2 : Pat := ⟨cat [.wb, strRx "CC".data, ws1, strRx "BY".data, .wb], false, false⟩

/-- Pattern `/\bFAIR\s+(?:principles?|data)\b/i` of `open_access_commitment`. -/
def oaP3 : Pat :=
  ⟨cat [.wb, strRx "fair".data, ws1, altsRx [cat [strRx "principle".data, optC 's'],
    strRx "data".data], .wb], true, false⟩

/-- Pattern `/\bZenodo\b/i` of `open_access_commitment`. -/
def oaP4 : Pat := ⟨cat [.wb, strRx "zenodo".data, .wb], true, false⟩

/-- Pattern `/\bEOSC\b/` (case-sensitive) of `open_access_commitment`. -/
def oaP5 : Pat := ⟨cat [.wb, strRx "EOSC".data, .wb], false, false⟩

/-- Pattern `/\bopen\s+(?:source|data|science)\b/i` of `open_access_commitment`. -/
def oaP6 : Pat :=
  ⟨cat [.wb, strRx "open".data, ws1, altsRx [strRx "source".data, strRx "data".data,
    strRx "science".data], .wb], true, false⟩

/-- Pattern `/immediately\s+open\s+access/i` of `open_access_commitment`. -/
def oaP7 : Pat :=
  ⟨cat [strRx "immediately".data, ws1, strRx "open".data, ws1,
    strRx "access".data], true, false⟩

/-- Check of signal `open_access_commitment`. -/
def openAccess_check (draft : List Char) : RawCheckResult :=
  let n := countMatches draft [oaP1, oaP2, oaP3, oaP4, oaP5, oaP6, oaP7]
  let hasOA := decide (0 < countMatches draft [oaP1])
  let hasFAIR := decide (0 < countMatches draft [oaP3])
  let bonus : ℚ := if hasOA && hasFAIR then 0.2 else 0
  { found := decide (0 < n)
    confidence := min 1 (sat (n : ℚ) 4 + bonus)
    evidence := collectEvidence draft [oaP7, oaP3, oaP2, oaP1] }

/-- Signal `open_access_commitment`. -/
def openAccessSignal : Signal :=
  { id := "open_access_commitment", label := "Open access commitment"
    criterion := .impact, weight := 0.10, requiredForThreshold := true
    timeEstimateMinutes := 3, check := openAccess_check }

/-- Pattern `/\bDMP\b/` (case-sensitive) of `dmp_referenced`. -/
def dmpP1 : Pat := ⟨cat [.wb, strRx "DMP".data, .wb], false, false⟩

/-- Pattern `/[Dd]ata\s+[Mm]anagement\s+[Pp]lan/` of `dmp_referenced`. -/
def dmpP2 : Pat :=
  ⟨cat [cls ['D', 'd'], strRx "ata".data, ws1, cls ['M', 'm'],
    strRx "anagement".data, ws1, cls ['P', 'p'], strRx "lan".data], false, false⟩

/-- Pattern `/\bD1\.1\b/` of `dmp_referenced`. -/
def dmpP3 : Pat := ⟨cat [.wb, chr 'D', chr '1', chr '.', chr '1', .wb], false, false⟩

/-- Pattern `/Month\s+6.*(?:DMP|data\s+management)/i` of `dmp_referenced`. -/
def dmpP4 : Pat :=
  ⟨cat [strRx "month".data, ws1, chr '6', dotStar,
    altsRx [strRx "dmp".data, cat [strRx "data".data, ws1, strRx "management".data]]],
    true, false⟩

/-- Check of signal `dmp_referenced`. -/
def dmp_check (draft : List Char) : RawCheckResult :=
  let n := countMatches draft [dmpP1, dmpP2, dmpP3, dmpP4]
  let bonus : ℚ := if decide (0 < countMatches draft [dmpP3]) then 0.3 else 0
  { found := decide (0 < n)
    confidence := min 1 (sat (n : ℚ) 3 + bonus)
    evidence := collectEvidence draft [dmpP4, dmpP3, dmpP2, dmpP1] }

/-- Signal `dmp_referenced`. -/
def dmpSignal : Signal :=
  { id := "dmp_referenced", label := "Data Management Plan referenced"
    criterion := .impact, weight := 0.04, requiredForThreshold := false
    timeEstimateMinutes := 3, check := dmp_check }

-- ---------------------------------------------------------------------------
-- IMPLEMENTATION signals
-- ---------------------------------------------------------------------------

/-- Pattern `/\bWP\d+\b/` (case-sensitive) of `work_packages_defined`;
also the pattern of the `distinctWPs` computation (`/\bWP(\d+)\b/g`,
whose capture group does not affect the matched range). -/
def wpP1 : Pat := ⟨cat [.wb, strRx "WP".data, digs1, .wb], false, false⟩

/-- Pattern `/[Ww]ork\s+[Pp]ackage\s+\d+/` of `work_packages_defined`. -/
def wpP2 : Pat :=
  ⟨cat [cls ['W', 'w'], strRx "ork".data, ws1, cls ['P', 'p'],
    strRx "ackage".data, ws1, digs1], false, false⟩

/-- Pattern `/\|\s*WP\s*[|#\d]/i` of `work_packages_defined`. -/
def wpP3 : Pat :=
  ⟨cat [chr '|', ws, strRx "wp".data, ws,
    .cc (fun c => c == '|' || c == '#' || isDigitChar c)], true, false⟩

/-- Pattern `/\|\s*WP\d+\s*\|/i` of `work_packages_defined`. -/
def wpP4 : Pat := ⟨cat [chr '|', ws, strRx "wp".data, digs1, ws, chr '|'], true, false⟩

/-- Source `new Set((draft.match(/\bWP(\d+)\b/g) || []).map(s => s.replace(/\D/g, ''))).size`:
the number of distinct digit strings among the `WP<digits>` matches. -/
def wpDistinct (draft : List Char) : Nat :=
  (((matchesOf wpP1 draft).map
    (fun m => ((draft.drop m.1).take m.2).filter isDigitChar)).dedup).length

/-- Check of signal `work_packages_defined`. -/
def wp_check (draft : List Char) : RawCheckResult :=
  let n := countMatches draft [wpP1, wpP2, wpP3, wpP4]
  let distinctWPs := wpDistinct draft
  { found := decide (0 < n)
    confidence := min 1 (sat (n : ℚ) 10 + sat (distinctWPs : ℚ) 4 * 0.2)
    evidence := collectEvidence draft [wpP3, wpP4, wpP2, wpP1] }

/-- Signal `work_packages_defined`. -/
def wpSignal : Signal :=
  { id := "work_packages_defined", label := "Work packages defined"
    criterion := .implementation, weight := 0.22, requiredForThreshold := true
    timeEstimateMinutes := 20, check := wp_check }

/-- Pattern `/\bMS\d+\b/` (case-sensitive) of `milestones_present`. -/
def msP1 : Pat := ⟨cat [.wb, strRx "MS".data, digs1, .wb], false, false⟩

/-- Pattern `/[Mm]ilestone\s+\d+/` of `milestones_present`. -/
def msP2 : Pat :=
  ⟨cat [cls ['M', 'm'], strRx "ilestone".data, ws1, digs1], false, false⟩

/-- Pattern `/\bMS\d+\s*\(\s*M\d+\s*\)/` of `milestones_present`. -/
def msP3 : Pat :=
  ⟨cat [.wb, strRx "MS".data, digs1, ws, chr '(', ws, chr 'M', digs1, ws, chr ')'],
    false, false⟩

/-- Pattern `/\|\s*MS\d+\s*\|/i` of `milestones_present`. -/
def msP4 : Pat := ⟨cat [chr '|', ws, strRx "ms".data, digs1, ws, chr '|'], true, false⟩

/-- Check of signal `milestones_present`. -/
def milestones_check (draft : List Char) : RawCheckResult :=
  let n := countMatches draft [msP1, msP2, msP3, msP4]
  let hasSpecificMS := decide (0 < countMatches draft [msP3])
  let bonus : ℚ := if hasSpecificMS then 0.2 else 0
  { found := decide (0 < n)
    confidence := min 1 (sat (n : ℚ) 5 + bonus)
    evidence := collectEvidence draft [msP3, msP4, msP1, msP2] }

/-- Signal `milestones_present`. -/
def milestonesSignal : Signal :=
  { id := "milestones_present", label := "Milestones defined"
    criterion := .implementation, weight := 0.14, requiredForThreshold := true
    timeEstimateMinutes := 10, check := milestones_check }

/-- Pattern `/\bD\d+\.\d+\b/` of `deliverables_present`. -/
def delP1 : Pat := ⟨cat [.wb, chr 'D', digs1, chr '.', digs1, .wb], false, false⟩

/-- Pattern `/[Dd]eliverable\s+D?\d/` of `deliverables_present`. -/
def delP2 : Pat :=
  ⟨cat [cls ['D', 'd'], strRx "eliverable".data, ws1, optC 'D', dig], false, false⟩

/-- Pattern `/\|\s*D\d+\.\d+\s*\|/i` of `deliverables_present`. -/
def delP3 : Pat :=
  ⟨cat [chr '|', ws, chr 'd', digs1, chr '.', digs1, ws, chr '|'], true, false⟩

/-- Pattern `/\bD1\.1\b.*(?:DMP|[Dd]ata\s+[Mm]anagement\s+[Pp]lan)/` of
`deliverables_present`. -/
def delP4 : Pat :=
  ⟨cat [.wb, chr 'D', chr '1', chr '.', chr '1', .wb, dotStar,
    altsRx [strRx "DMP".data, cat [cls ['D', 'd'], strRx "ata".data, ws1,
      cls ['M', 'm'], strRx "anagement".data, ws1, cls ['P', 'p'], strRx "lan".data]]],
    false, false⟩

/-- Check of signal `deliverables_present`. -/
def deliverables_check (draft : List Char) : RawCheckResult :=
  let n := countMatches draft [delP1, delP2, delP3, delP4]
  let hasDMP := decide (0 < countMatches draft [delP4])
  let bonus : ℚ := if hasDMP then 0.15 else 0
  { found := decide (0 < n)
    confidence := min 1 (sat (n : ℚ) 6 + bonus)
    evidence := collectEvidence draft [delP4, delP3, delP1, delP2] }

/-- Signal `deliverables_present`. -/
def deliverablesSignal : Signal :=
  { id := "deliverables_present", label := "Deliverables defined"
    criterion := .implementation, weight := 0.14, requiredForThreshold := true
    timeEstimateMinutes := 8, check := deliverables_check }

/-- Pattern `/\bGantt\b/i` of `gantt_or_timeline`. -/
def ganttP1 : Pat := ⟨cat [.wb, strRx "gantt".data, .wb], true, false⟩

/-- Pattern `/M\d+\s*[–—\-]\s*M\d+/` of `gantt_or_timeline`. -/
def ganttP2 : Pat :=
  ⟨cat [chr 'M', digs1, ws, cls ['–', '—', '-'], ws, chr 'M', digs1], false, false⟩

/-- Pattern `/Month\s+\d+\s*[–—\-]\s*Month\s+\d+/i` of `gantt_or_timeline`. -/
def ganttP3 : Pat :=
  ⟨cat [strRx "month".data, ws1, digs1, ws, cls ['–', '—', '-'], ws,
    strRx "month".data, ws1, digs1], true, false⟩

/-- Pattern `/critical\s+path/i` of `gantt_or_timeline`. -/
def ganttP4 : Pat := ⟨cat [strRx "critical".data, ws1, strRx "path".data], true, false⟩

/-- Membership test of the class `[|█▓▒░]` of the ASCII-Gantt pattern. -/
def ganttBarChar (c : Char) : Bool :=
  c == '|' || c == '█' || c == '▓' || c == '▒' || c == '░'

/-- Pattern `/[|█▓▒░]{3,}/` of `gantt_or_timeline` (`x{3,}` as `x x x x*`). -/
def ganttP5 : Pat :=
  ⟨cat [.cc ganttBarChar, .cc ganttBarChar, .cc ganttBarChar, .starC ganttBarChar],
    false, false⟩

/-- Pattern `/\|\s*M\d+\s*\|/i` of `gantt_or_timeline`. -/
def ganttP6 : Pat := ⟨cat [chr '|', ws, chr 'm', digs1, ws, chr '|'], true, false⟩

/-- Check of signal `gantt_or_timeline`. -/
def gantt_check (draft : List Char) : RawCheckResult :=
  let n := countMatches draft [ganttP1, ganttP2, ganttP3, ganttP4, ganttP5, ganttP6]
  { found := decide (0 < n)
    confidence := sat (n : ℚ) 4
    evidence := collectEvidence draft [ganttP1, ganttP2, ganttP4, ganttP6] }

/-- Signal `gantt_or_timeline`. -/
def ganttSignal : Signal :=
  { id := "gantt_or_timeline", label := "Gantt chart / timeline"
    criterion := .implementation, weight := 0.10, requiredForThreshold := false
    timeEstimateMinutes := 12, check := gantt_check }

/-- Pattern `/\bR\d+\b.*\brisk\b/i` of `risk_register`. -/
def riskP1 : Pat :=
  ⟨cat [.wb, chr 'r', digs1, .wb, dotStar, .wb, strRx "risk".data, .wb], true, false⟩

/-- Pattern `/risk\s+register/i` of `risk_register`. -/
def riskP2 : Pat := ⟨cat [strRx "risk".data, ws1, strRx "register".data], true, false⟩

/-- Pattern `/\blikelihood\b/i` of `risk_register`. -/
def riskP3 : Pat := ⟨cat [.wb, strRx "likelihood".data, .wb], true, false⟩

/-- Pattern `/\bmitigation\b/i` of `risk_register`. -/
def riskP4 : Pat := ⟨cat [.wb, strRx "mitigation".data, .wb], true, false⟩

/-- Pattern `/\|\s*(?:Risk|Likelihood|Mitigation)\s*\|/i` of `risk_register`. -/
def riskP5 : Pat :=
  ⟨cat [chr '|', ws, altsRx [strRx "risk".data, strRx "likelihood".data,
    strRx "mitigation".data], ws, chr '|'], true, false⟩

/-- Pattern `/\b(?:H|M|L)\s*\|\s*(?:H|M|L)\b/` (case-sensitive) of `risk_register`. -/
def riskP6 : Pat :=
  ⟨cat [.wb, altsRx [chr 'H', chr 'M', chr 'L'], ws, chr '|', ws,
    altsRx [chr 'H', chr 'M', chr 'L'], .wb], false, false⟩

/-- Check of signal `risk_register`. -/
def risk_check (draft : List Char) : RawCheckResult :=
  let n := countMatches draft [riskP1, riskP2, riskP3, riskP4, riskP5, riskP6]
  let hasFullTable :=
    decide (0 < countMatches draft [riskP3]) && decide (0 < countMatches draft [riskP4])
  let bonus : ℚ := if hasFullTable then 0.25 else 0
  { found := decide (0 < n)
    confidence := min 1 (sat (n : ℚ) 6 + bonus)
    evidence := collectEvidence draft [riskP2, riskP5, riskP3, riskP4] }

/-- Signal `risk_register`. -/
def riskSignal : Signal :=
  { id := "risk_register", label := "Risk register"
    criterion := .implementation, weight := 0.14, requiredForThreshold := true
    timeEstimateMinutes := 10, check := risk_check }

/-- Pattern `/\bconsortium\b/i` of `consortium_described`. -/
def consP1 : Pat := ⟨cat [.wb, strRx "consortium".data, .wb], true, false⟩

/-- Pattern `/\bpartner[s]?\b/i` of `consortium_described`. -/
def consP2 : Pat := ⟨cat [.wb, strRx "partner".data, .opt (cls ['s']), .wb], true, false⟩

/-- Pattern `/\|\s*(?:Partner|Organisation|Organization|Country)\s*\|/i`. -/
def consP3 : Pat :=
  ⟨cat [chr '|', ws, altsRx [strRx "partner".data, strRx "organisation".data,
    strRx "organization".data, strRx "country".data], ws, chr '|'], true, false⟩

/-- Pattern `/\bcomplementar(?:y|ity)\b/i` of `consortium_described`. -/
def consP4 : Pat :=
  ⟨cat [.wb, strRx "complementar".data, altsRx [strRx "y".data, strRx "ity".data], .wb],
    true, false⟩

/-- Pattern `/\|.+\|\s*(?:HEI|SME|NGO|University|Research|Industry)\s*\|/i`. -/
def consP5 : Pat :=
  ⟨cat [chr '|', .plusC isDotChar, chr '|', ws, altsRx [strRx "hei".data,
    strRx "sme".data, strRx "ngo".data, strRx "university".data,
    strRx "research".data, strRx "industry".data], ws, chr '|'], true, false⟩

/-- Check of signal `consortium_described`. -/
def consortium_check (draft : List Char) : RawCheckResult :=
  let n := countMatches draft [consP1, consP2, consP3, consP4, consP5]
  let hasPartnerTable :=
    decide (0 < countMatches draft [consP3]) || decide (0 < countMatches draft [consP5])
  let bonus : ℚ := if hasPartnerTable then 0.2 else 0
  { found := decide (0 < n)
    confidence := min 1 (sat (n : ℚ) 6 + bonus)
    evidence := collectEvidence draft [consP3, consP5, consP4, consP1] }

/-- Signal `consortium_described`. -/
def consortiumSignal : Signal :=
  { id := "consortium_described", label := "Consortium described"
    criterion := .implementation, weight := 0.12, requiredForThreshold := true
    timeEstimateMinutes := 8, check := consortium_check }

/-- Pattern `/\bperson[-\s]month[s]?\b/i` of `budget_justified`. -/
def budP1 : Pat :=
  ⟨cat [.wb, strRx "person".data, .cc (fun c => c == '-' || isSpaceChar c),
    strRx "month".data, .opt (cls ['s']), .wb], true, false⟩

/-- Pattern `/\|\s*(?:Budget|Cost|Personnel|Equipment)\s*\|/i` of `budget_justified`. -/
def budP2 : Pat :=
  ⟨cat [chr '|', ws, altsRx [strRx "budget".data, strRx "cost".data,
    strRx "personnel".data, strRx "equipment".data], ws, chr '|'], true, false⟩

/-- Pattern `/€\s*\d[\d,.]*/` of `budget_justified`. -/
def budP3 : Pat :=
  ⟨cat [chr '€', ws, dig, .starC (fun c => isDigitChar c || c == ',' || c == '.')],
    false, false⟩

/-- Pattern `/budget\s+(?:breakdown|justification|allocation|summary)/i`. -/
def budP4 : Pat :=
  ⟨cat [strRx "budget".data, ws1, altsRx [strRx "breakdown".data,
    strRx "justification".data, strRx "allocation".data, strRx "summary".data]],
    true, false⟩

/-- Pattern `/\bvalue[-\s]for[-\s]money\b/i` of `budget_justified`. -/
def budP5 : Pat :=
  ⟨cat [.wb, strRx "value".data, .cc (fun c => c == '-' || isSpaceChar c),
    strRx "for".data, .cc (fun c => c == '-' || isSpaceChar c),
    strRx "money".data, .wb], true, false⟩

/-- Check of signal `budget_justified`. -/
def budget_check (draft : List Char) : RawCheckResult :=
  let n := countMatches draft [budP1, budP2, budP3, budP4, budP5]
  { found := decide (0 < n)
    confidence := sat (n : ℚ) 5
    evidence := collectEvidence draft [budP4, budP2, budP1, budP3] }

/-- Signal `budget_justified`. -/
def budgetSignal : Signal :=
  { id := "budget_justified", label := "Budget justified"
    criterion := .implementation, weight := 0.08, requiredForThreshold := false
    timeEstimateMinutes := 12, check := budget_check }

/-- Pattern `/steering\s+committee/i` of `management_structure`. -/
def mgmtP1 : Pat := ⟨cat [strRx "steering".data, ws1, strRx "committee".data], true, false⟩

/-- Pattern `/project\s+coordinator/i` of `management_structure`. -/
def mgmtP2 : Pat := ⟨cat [strRx "project".data, ws1, strRx "coordinator".data], true, false⟩

/-- Pattern `/\bgovernance\b/i` of `management_structure`. -/
def mgmtP3 : Pat := ⟨cat [.wb, strRx "governance".data, .wb], true, false⟩

/-- Pattern `/\b(?:decision[-\s]making|decision\s+procedure)\b/i`. -/
def mgmtP4 : Pat :=
  ⟨cat [.wb, altsRx [cat [strRx "decision".data,
    .cc (fun c => c == '-' || isSpaceChar c), strRx "making".data],
    cat [strRx "decision".data, ws1, strRx "procedure".data]], .wb], true, false⟩

/-- Pattern `/management\s+structure/i` of `management_structure`. -/
def mgmtP5 : Pat := ⟨cat [strRx "management".data, ws1, strRx "structure".data], true, false⟩

/-- Pattern `/\bWP\s+[Ll]eader[s]?\b/i` of `management_structure`. -/
def mgmtP6 : Pat :=
  ⟨cat [.wb, strRx "wp".data, ws1, cls ['l'], strRx "eader".data, .opt (cls ['s']), .wb],
    true, false⟩

/-- Check of signal `management_structure`. -/
def management_check (draft : List Char) : RawCheckResult :=
  let n := countMatches draft [mgmtP1, mgmtP2, mgmtP3, mgmtP4, mgmtP5, mgmtP6]
  { found := decide (0 < n)
    confidence := sat (n : ℚ) 4
    evidence := collectEvidence draft [mgmtP1, mgmtP2, mgmtP5, mgmtP4] }

/-- Signal `management_structure`. -/
def managementSignal : Signal :=
  { id := "management_structure", label := "Management structure"
    criterion := .implementation, weight := 0.06, requiredForThreshold := false
    timeEstimateMinutes := 8, check := management_check }

-- ---------------------------------------------------------------------------
-- Registry
-- ---------------------------------------------------------------------------

/-- The static signal registry (source `SIGNALS`), in declaration order. -/
def SIGNALS : List Signal :=
  [objectivesSignal, trlSignal, methodologySignal, sotaSignal, noveltySignal,
   successSignal, alternativeSignal,
   outcomesSignal, kpiSignal, exploitationSignal, disseminationSignal,
   stakeholdersSignal, openAccessSignal, dmpSignal,
   wpSignal, milestonesSignal, deliverablesSignal, ganttSignal, riskSignal,
   consortiumSignal, budgetSignal, managementSignal]

/-- Source `signalsForCriterion`: all signals for a criterion, in
declaration order (`SIGNALS.filter`). -/
def signalsForCriterion (criterion : CriterionId) : List Signal :=
  SIGNALS.filter (fun s => s.criterion == criterion)

/-- Source `signalById`: find a signal by id; the source throws
an `Error` whose message is `Signal not found: "id"` when absent,
modelled as `Except.error`. -/
def signalById (id : String) : Except String Signal :=
  match SIGNALS.find? (fun s => s.id == id) with
  | some s => .ok s
  | none => .error ("Signal not found: \"" ++ id ++ "\"")

/-- The list of criteria validated at module load time (source `CRITERIA`). -/
def CRITERIA : List CriterionId := [.excellence, .impact, .implementation]

/-- Sum of the signal weights of one criterion within a registry
(source `signalsForCriterion(c).reduce((sum, s) => sum + s.weight, 0)`). -/
def weightTotal (sigs : List Signal) (c : CriterionId) : ℚ :=
  ((sigs.filter (fun s => s.criterion == c)).map (fun s => s.weight)).sum

/-- Name of a criterion as used in the warning message. -/
def critName : CriterionId → String
  | .excellence => "excellence"
  | .impact => "impact"
  | .implementation => "implementation"

/-- The module-load validation loop of `signals.ts`: for each criterion
whose weights sum more than `0.01` away from `1.0` it emits a
`console.warn` message — and nothing else; it never throws, and the
registry is served unchanged ("Surface as a console warning during
development; does not throw in production").  Modelled as the list of
warning messages produced for a given registry (the numeric total
interpolated into the source message is not reproduced). -/
def loadWarnings (sigs : List Signal) : List String :=
  CRITERIA.filterMap (fun c =>
    if 1/100 < |weightTotal sigs c - 1| then
      some ("[GrantCraft] Signal weights for criterion \"" ++ critName c ++
        "\" do not sum to 1.00")
    else none)

/-- Module load, as observed by importers: the emitted warnings together
with the registry, which is always returned as-is (construction never
fails). -/
def registryLoad (sigs : List Signal) : List String × List Signal :=
  (loadWarnings sigs, sigs)

-- ---------------------------------------------------------------------------
-- Arithmetic lemmas about `sat` and the clamp
-- ---------------------------------------------------------------------------

theorem sat_nonneg (m S : ℚ) (hS : 0 < S) : 0 ≤ sat m S := by
  unfold sat
  split
  · exact le_rfl
  · next h =>
    have hm : 0 < m := lt_of_not_le h
    exact le_min (by norm_num) (le_of_lt (div_pos hm hS))

theorem sat_le_one (m S : ℚ) : sat m S ≤ 1 := by
  unfold sat
  split
  · norm_num
  · exact min_le_left _ _

theorem sat01 (n : ℕ) (S : ℚ) (hS : 0 < S) :
    0 ≤ sat (n : ℚ) S ∧ sat (n : ℚ) S ≤ 1 :=
  ⟨sat_nonneg _ _ hS, sat_le_one _ _⟩

theorem sat_pos_iff (n : ℕ) (S : ℚ) (hS : 0 < S) :
    0 < sat (n : ℚ) S ↔ 0 < n := by
  unfold sat
  by_cases h : (n : ℚ) ≤ 0
  · have hn : n = 0 := by exact_mod_cast le_antisymm h (by positivity)
    simp [h, hn]
  · have hn : 0 < (n : ℚ) := lt_of_not_le h
    have hn2 : 0 < n := by exact_mod_cast hn
    simp only [h, if_false]
    rw [lt_min_iff]
    constructor
    · intro _; exact hn2
    · intro _; exact ⟨by norm_num, div_pos hn hS⟩

theorem clamp01 (x : ℚ) (hx : 0 ≤ x) : 0 ≤ min 1 x ∧ min 1 x ≤ 1 :=
  ⟨le_min (by norm_num) hx, min_le_left _ _⟩

theorem clamp_pos_iff (x : ℚ) : 0 < min 1 x ↔ 0 < x := by
  rw [lt_min_iff]
  constructor
  · intro h; exact h.2
  · intro h; exact ⟨by norm_num, h⟩

theorem ite_bool_nonneg (b : Bool) (x y : ℚ) (hx : 0 ≤ x) (hy : 0 ≤ y) :
    0 ≤ if b then x else y := by
  cases b <;> simpa

theorem found_iff_sat (n : ℕ) (S : ℚ) (hS : 0 < S) :
    (decide (0 < n) = true) ↔ 0 < sat (n : ℚ) S := by
  rw [decide_eq_true_iff]
  exact (sat_pos_iff n S hS).symm

-- ---------------------------------------------------------------------------
-- Evidence lemmas
-- ---------------------------------------------------------------------------

theorem getLine_len (text : List Char) (pos : ℕ) : (getLine text pos).length ≤ 120 := by
  unfold getLine
  dsimp only
  split
  · next h => exact h
  · simp [List.length_take]

theorem addSnips_inv (text : List Char) :
    ∀ (idxs : List ℕ) (acc : List (List Char)) (max : ℕ),
      acc.Nodup → acc.length < max → (∀ e ∈ acc, e.length ≤ 120) →
      (addSnips text idxs acc max).Nodup ∧
        (addSnips text idxs acc max).length ≤ max ∧
        ∀ e ∈ addSnips text idxs acc max, e.length ≤ 120 := by
  intro idxs
  induction idxs with
  | nil =>
    intro acc max h1 h2 h3
    exact ⟨h1, le_of_lt h2, h3⟩
  | cons i rest ih =>
    intro acc max h1 h2 h3
    simp only [addSnips]
    split
    · next hcond =>
      have hnodup2 : (acc ++ [getLine text i]).Nodup := by
        rw [List.nodup_append]
        exact ⟨h1, List.nodup_singleton _, by simpa using fun h => hcond.2 h⟩
      have hlen2 : (acc ++ [getLine text i]).length ≤ max := by
        simp only [List.length_append, List.length_singleton]
        omega
      have hent2 : ∀ e ∈ acc ++ [getLine text i], e.length ≤ 120 := by
        intro e he
        rcases List.mem_append.mp he with h | h
        · exact h3 e h
        · rw [List.mem_singleton.mp h]; exact getLine_len text i
      split
      · next => exact ⟨hnodup2, hlen2, hent2⟩
      · next hlt =>
        exact ih (acc ++ [getLine text i]) max hnodup2 (by omega) hent2
    · exact ih acc max h1 h2 h3

theorem evLoop_inv (text : List Char) :
    ∀ (pats : List Pat) (acc : List (List Char)) (max : ℕ),
      acc.Nodup → acc.length < max → (∀ e ∈ acc, e.length ≤ 120) →
      (evLoop text pats acc max).Nodup ∧
        (evLoop text pats acc max).length ≤ max ∧
        ∀ e ∈ evLoop text pats acc max, e.length ≤ 120 := by
  intro pats
  induction pats with
  | nil =>
    intro acc max h1 h2 h3
    exact ⟨h1, le_of_lt h2, h3⟩
  | cons p ps ih =>
    intro acc max h1 h2 h3
    simp only [evLoop]
    obtain ⟨g1, g2, g3⟩ :=
      addSnips_inv text ((matchesOf p text).map (fun m => m.1)) acc max h1 h2 h3
    split
    · exact ⟨g1, g2, g3⟩
    · next hlt =>
      exact ih _ max g1 (by omega) g3

theorem collectEvidence_props (text : List Char) (pats : List Pat) :
    (collectEvidence text pats).Nodup ∧
      (collectEvidence text pats).length ≤ 3 ∧
      ∀ e ∈ collectEvidence text pats, e.length ≤ 120 :=
  evLoop_inv text pats [] 3 (List.nodup_nil) (by norm_num) (by simp)

-- ---------------------------------------------------------------------------
-- Scan lemmas: reachable scan states, soundness and completeness
-- ---------------------------------------------------------------------------

/-- States `(previous char, suffix)` the global scan can pass through:
from `(p, s)`, every suffix of `s` (with the correct previous
character) is reachable. -/
inductive Reach : Option Char → List Char → Option Char → List Char → Prop where
  | refl (p : Option Char) (s : List Char) : Reach p s p s
  | step (p : Option Char) (c : Char) (t : List Char) (p' : Option Char)
      (s' : List Char) : Reach (some c) t p' s' → Reach p (c :: t) p' s'

/-- Previous-character bookkeeping when skipping over a block `u`. -/
def lastOr (p : Option Char) (u : List Char) : Option Char :=
  match u.getLast? with
  | some c => some c
  | none => p

theorem lastOr_cons (p : Option Char) (c : Char) (u : List Char) :
    lastOr p (c :: u) = lastOr (some c) u := by
  cases u with
  | nil => simp [lastOr]
  | cons d u' =>
    unfold lastOr
    rw [List.getLast?_cons_cons]
    cases h : (d :: u').getLast? with
    | none =>
      rw [List.getLast?_eq_none_iff] at h
      simp at h
    | some e => rfl

theorem reach_append : ∀ (u : List Char) (p : Option Char) (rest : List Char),
    Reach p (u ++ rest) (lastOr p u) rest := by
  intro u
  induction u with
  | nil =>
    intro p rest
    simpa [lastOr] using Reach.refl p rest
  | cons c u' ih =>
    intro p rest
    rw [List.cons_append, lastOr_cons]
    exact Reach.step p c (u' ++ rest) _ rest (ih (some c) rest)

theorem scanAux_ne_nil (pat : Pat) :
    ∀ (p : Option Char) (s : List Char) (p' : Option Char) (s' : List Char),
      Reach p s p' s' → (matchTop pat p' s').isSome →
      ∀ (fuel pos : ℕ), s.length < fuel → scanAux pat fuel p s pos ≠ [] := by
  intro p s p' s' hr
  induction hr with
  | refl p s =>
    intro hm fuel pos hf
    cases fuel with
    | zero => omega
    | succ f =>
      obtain ⟨rest, h⟩ := Option.isSome_iff_exists.mp hm
      simp only [scanAux, h]
      split
      · cases s <;> simp
      · simp
  | step p c t p' s' _ ih =>
    intro hm fuel pos hf
    cases fuel with
    | zero => simp at hf
    | succ f =>
      simp only [scanAux]
      cases h : matchTop pat p (c :: t) with
      | some rest =>
        simp only [h]
        split
        · simp
        · simp
      | none =>
        simp only [h]
        exact ih hm f (pos + 1) (by simp at hf; omega)

theorem scanAux_sound (pat : Pat) :
    ∀ (fuel : ℕ) (p : Option Char) (s : List Char) (pos : ℕ),
      scanAux pat fuel p s pos ≠ [] →
      ∃ p' s', Reach p s p' s' ∧ (matchTop pat p' s').isSome := by
  intro fuel
  induction fuel with
  | zero =>
    intro p s pos h
    simp [scanAux] at h
  | succ f ih =>
    intro p s pos h
    simp only [scanAux] at h
    cases hm : matchTop pat p s with
    | some rest =>
      exact ⟨p, s, Reach.refl p s, by simp [hm]⟩
    | none =>
      rw [hm] at h
      cases s with
      | nil => simp at h
      | cons c t =>
        obtain ⟨p', s', hr, hms⟩ := ih (some c) t (pos + 1) h
        exact ⟨p', s', Reach.step p c t p' s' hr, hms⟩

theorem countPat_pos (pat : Pat) (text : List Char) (p' : Option Char)
    (s' : List Char) (hr : Reach none text p' s')
    (hm : (matchTop pat p' s').isSome) : 0 < countPat pat text := by
  have h := scanAux_ne_nil pat none text p' s' hr hm (text.length + 1) 0 (by omega)
  unfold countPat matchesOf
  exact List.length_pos.mpr h

theorem countPat_pos_inv (pat : Pat) (text : List Char)
    (h : 0 < countPat pat text) :
    ∃ p' s', Reach none text p' s' ∧ (matchTop pat p' s').isSome := by
  unfold countPat matchesOf at h
  exact scanAux_sound pat (text.length + 1) none text 0
    (List.length_pos.mp h)

-- ---------------------------------------------------------------------------
-- Continuation monotonicity (a match of `seq a b` yields a match of `a`)
-- ---------------------------------------------------------------------------

theorem starRun_mono (ci : Bool) (f : Char → Bool) :
    ∀ (s : List Char) (p : Option Char) k₁ k₂,
      (∀ q r, (k₁ q r).isSome → (k₂ q r).isSome) →
      (starRun ci f p s k₁).isSome → (starRun ci f p s k₂).isSome := by
  intro s
  induction s with
  | nil =>
    intro p k₁ k₂ hk h
    exact hk p [] h
  | cons c t ih =>
    intro p k₁ k₂ hk h
    simp only [starRun] at h ⊢
    by_cases hf : f (fold ci c)
    · simp only [hf, if_true] at h ⊢
      cases h2 : starRun ci f (some c) t k₂ with
      | some r => simp
      | none =>
        simp only [h2]
        cases h1 : starRun ci f (some c) t k₁ with
        | some r =>
          have := ih (some c) k₁ k₂ hk (by simp [h1])
          simp [h2] at this
        | none =>
          rw [h1] at h
          exact hk p (c :: t) h
    · simp only [hf, if_false] at h ⊢
      exact hk p (c :: t) h

theorem mrunO_mono (ci ml : Bool) :
    ∀ (rx : Rx) (p : Option Char) (s : List Char) k₁ k₂,
      (∀ q r, (k₁ q r).isSome → (k₂ q r).isSome) →
      (mrunO ci ml rx p s k₁).isSome → (mrunO ci ml rx p s k₂).isSome := by
  intro rx
  induction rx with
  | eps =>
    intro p s k₁ k₂ hk h
    exact hk p s h
  | cc f =>
    intro p s k₁ k₂ hk h
    cases s with
    | nil => simp [mrunO] at h
    | cons c t =>
      simp only [mrunO] at h ⊢
      by_cases hf : f (fold ci c)
      · simp only [hf, if_true] at h ⊢
        exact hk (some c) t h
      · simp [hf] at h
  | seq a b iha ihb =>
    intro p s k₁ k₂ hk h
    simp only [mrunO] at h ⊢
    refine iha p s _ _ ?_ h
    intro q r hin
    exact ihb q r k₁ k₂ hk hin
  | alt a b iha ihb =>
    intro p s k₁ k₂ hk h
    simp only [mrunO] at h ⊢
    cases h2 : mrunO ci ml a p s k₂ with
    | some r => simp
    | none =>
      simp only [h2]
      cases h1 : mrunO ci ml a p s k₁ with
      | some r =>
        have := iha p s k₁ k₂ hk (by simp [h1])
        simp [h2] at this
      | none =>
        rw [h1] at h
        exact ihb p s k₁ k₂ hk h
  | opt a iha =>
    intro p s k₁ k₂ hk h
    simp only [mrunO] at h ⊢
    cases h2 : mrunO ci ml a p s k₂ with
    | some r => simp
    | none =>
      simp only [h2]
      cases h1 : mrunO ci ml a p s k₁ with
      | some r =>
        have := iha p s k₁ k₂ hk (by simp [h1])
        simp [h2] at this
      | none =>
        rw [h1] at h
        exact hk p s h
  | starC f =>
    intro p s k₁ k₂ hk h
    exact starRun_mono ci f s p k₁ k₂ hk h
  | plusC f =>
    intro p s k₁ k₂ hk h
    cases s with
    | nil => simp [mrunO] at h
    | cons c t =>
      simp only [mrunO] at h ⊢
      by_cases hf : f (fold ci c)
      · simp only [hf, if_true] at h ⊢
        exact starRun_mono ci f t (some c) k₁ k₂ hk h
      · simp [hf] at h
  | wb =>
    intro p s k₁ k₂ hk h
    simp only [mrunO] at h ⊢
    by_cases hb : wordBoundary p s
    · simp only [hb, if_true] at h ⊢
      exact hk p s h
    · simp [hb] at h
  | bol =>
    intro p s k₁ k₂ hk h
    simp only [mrunO] at h ⊢
    by_cases hb : atLineStart ml p
    · simp only [hb, if_true] at h ⊢
      exact hk p s h
    · simp [hb] at h

theorem matchTop_seq_head (a b : Rx) (ci ml : Bool) (p : Option Char)
    (s : List Char) (h : (matchTop ⟨.seq a b, ci, ml⟩ p s).isSome) :
    (matchTop ⟨a, ci, ml⟩ p s).isSome := by
  simp only [matchTop, mrunO] at h ⊢
  refine mrunO_mono ci ml a p s _ _ ?_ h
  intro q r _
  simp

-- ---------------------------------------------------------------------------
-- Spec-modelled aggregator pieces (the aggregator source is not under src/)
-- ---------------------------------------------------------------------------

/-- Modelled from the spec: the aggregator (spec §4.3, not under
`src/`) maps the raw fractional score of a criterion in `[0,1]` to the 0–5
scale by multiplying by 5 and rounding to the nearest 0.5,
round-half-up. -/
def criterionScore (frac : ℚ) : ℚ := (⌊frac * 10 + 1 / 2⌋ : ℚ) / 2

/-- Modelled from the spec: the scoring pipeline (spec §4.3, not under
`src/`) runs the check of every signal on the document and computes each
score of each criterion from `Σ (signal.weight × result.confidence)`. -/
def scoreReport (d : List Char) : List (CriterionId × ℚ) :=
  CRITERIA.map (fun c =>
    (c, criterionScore (((signalsForCriterion c).map
      (fun s => s.weight * (s.check d).confidence)).sum)))

/-- Weighted sum for the minimal-pass scenario: confidence 1 on every
`requiredForThreshold` signal of the criterion and 0 on the others. -/
def requiredFrac (c : CriterionId) : ℚ :=
  ((signalsForCriterion c).map
    (fun s => s.weight * (if s.requiredForThreshold then 1 else 0))).sum

-- ---------------------------------------------------------------------------
-- A misweighted test registry (for the load-time validation claims)
-- ---------------------------------------------------------------------------

/-- Check function of the misweighted test registry (inert). -/
def dummyCheck : List Char → RawCheckResult :=
  fun _ => { found := false, confidence := 0, evidence := [] }

/-- A signal carrying weight `0.5` on `excellence`. -/
def badSignal : Signal :=
  { id := "bad", label := "bad", criterion := .excellence, weight := 0.5
    requiredForThreshold := false, timeEstimateMinutes := 0, check := dummyCheck }

/-- A correctly weighted single signal for criterion `c`. -/
def unitSignal (c : CriterionId) (i : String) : Signal :=
  { id := i, label := i, criterion := c, weight := 1
    requiredForThreshold := false, timeEstimateMinutes := 0, check := dummyCheck }

/-- A registry whose `excellence` weights sum to `0.5` (violating the
weight invariant by `0.49`) while the other two criteria sum to 1. -/
def badRegistry : List Signal :=
  [badSignal, unitSignal .impact "u_impact", unitSignal .implementation "u_implementation"]

-- ---------------------------------------------------------------------------
-- Claim C4
-- ---------------------------------------------------------------------------

/-- C4: `sat(matchCount, saturationPoint)` returns 0 when
`matchCount <= 0` and `min(1.0, matchCount / saturationPoint)`
otherwise; consequently, for every fixed `S > 0`, `sat(n, S)` is
non-decreasing in `n`, `sat(0, S) = 0`, `sat(S, S) = 1`, and
`sat(2S, S) = 1`. -/
theorem c4_saturation :
    (∀ m S : ℚ, m ≤ 0 → sat m S = 0) ∧
    (∀ m S : ℚ, 0 < m → sat m S = min 1 (m / S)) ∧
    ∀ S : ℚ, 0 < S →
      (∀ n₁ n₂ : ℚ, n₁ ≤ n₂ → sat n₁ S ≤ sat n₂ S) ∧
      sat 0 S = 0 ∧ sat S S = 1 ∧ sat (2 * S) S = 1 := by
  refine ⟨?_, ?_, ?_⟩
  · intro m S h; simp [sat, h]
  · intro m S h; simp [sat, not_le.mpr h]
  · intro S hS
    refine ⟨?_, by simp [sat], ?_, ?_⟩
    · intro n₁ n₂ h12
      by_cases h1 : n₁ ≤ 0
      · rw [sat, if_pos h1]; exact sat_nonneg _ _ hS
      · have h2 : ¬ n₂ ≤ 0 := fun hc => h1 (le_trans h12 hc)
        rw [sat, if_neg h1, sat, if_neg h2]
        gcongr
    · rw [sat, if_neg (not_le.mpr hS), div_self (ne_of_gt hS)]
      norm_num
    · have h2S : 0 < 2 * S := by linarith
      rw [sat, if_neg (not_le.mpr h2S)]
      have hq : 2 * S / S = 2 := by
        rw [mul_div_assoc, div_self (ne_of_gt hS)]; ring
      rw [hq]
      exact min_eq_left (by norm_num)

/-- Witness for C4 at `S = 2`. -/
theorem c4_saturation_witness :
    sat (1 : ℚ) 2 ≤ sat (2 : ℚ) 2 ∧ sat (2 : ℚ) 2 = 1 ∧ sat (4 : ℚ) 2 = 1 := by
  obtain ⟨-, -, h⟩ := c4_saturation
  obtain ⟨mono, -, hS, h2S⟩ := h 2 (by norm_num)
  refine ⟨mono 1 2 (by norm_num), hS, ?_⟩
  have : (4 : ℚ) = 2 * 2 := by norm_num
  rw [this]
  exact h2S

-- ---------------------------------------------------------------------------
-- Claim C2
-- ---------------------------------------------------------------------------

theorem ite_conf_bounds (b : Bool) (x y : ℚ) (hx : 0 ≤ x ∧ x ≤ 1)
    (hy : 0 ≤ y ∧ y ≤ 1) :
    0 ≤ (if b then x else y) ∧ (if b then x else y) ≤ 1 := by
  cases b <;> simpa

/-- C2: for every signal in `SIGNALS` and every document, the
confidence of the returned `RawCheckResult` is at least 0 and at most
1; in particular the signals that add a fixed structural bonus clamp
the combined confidence to `[0,1]`. -/
theorem c2_confidence_bounds :
    ∀ s ∈ SIGNALS, ∀ d : List Char,
      0 ≤ (s.check d).confidence ∧ (s.check d).confidence ≤ 1 := by
  intro s hs d
  simp only [SIGNALS, List.mem_cons, List.not_mem_nil, or_false] at hs
  rcases hs with rfl | rfl | rfl | rfl | rfl | rfl | rfl | rfl | rfl | rfl | rfl |
    rfl | rfl | rfl | rfl | rfl | rfl | rfl | rfl | rfl | rfl | rfl
  · simp only [objectivesSignal, objectives_check]
    exact sat01 _ 5 (by norm_num)
  · simp only [trlSignal, trl_check]
    exact ite_conf_bounds _ _ _
      (clamp01 _ (add_nonneg (sat_nonneg _ _ (by norm_num)) (by norm_num)))
      (sat01 _ 3 (by norm_num))
  · simp only [methodologySignal, methodology_check]
    exact sat01 _ 8 (by norm_num)
  · simp only [sotaSignal, sota_check]
    exact sat01 _ 6 (by norm_num)
  · simp only [noveltySignal, novelty_check]
    exact sat01 _ 4 (by norm_num)
  · simp only [successSignal, success_check]
    exact sat01 _ 5 (by norm_num)
  · simp only [alternativeSignal, alternative_check]
    exact sat01 _ 3 (by norm_num)
  · simp only [outcomesSignal, outcomes_check]
    exact sat01 _ 5 (by norm_num)
  · simp only [kpiSignal, kpi_check]
    exact clamp01 _ (add_nonneg (sat_nonneg _ _ (by norm_num))
      (ite_bool_nonneg _ _ _ (by norm_num)
        (ite_bool_nonneg _ _ _ (by norm_num) le_rfl)))
  · simp only [exploitationSignal, exploitation_check]
    exact sat01 _ 5 (by norm_num)
  · simp only [disseminationSignal, dissemination_check]
    exact sat01 _ 7 (by norm_num)
  · simp only [stakeholdersSignal, stakeholders_check]
    exact sat01 _ 5 (by norm_num)
  · simp only [openAccessSignal, openAccess_check]
    exact clamp01 _ (add_nonneg (sat_nonneg _ _ (by norm_num))
      (ite_bool_nonneg _ _ _ (by norm_num) le_rfl))
  · simp only [dmpSignal, dmp_check]
    exact clamp01 _ (add_nonneg (sat_nonneg _ _ (by norm_num))
      (ite_bool_nonneg _ _ _ (by norm_num) le_rfl))
  · simp only [wpSignal, wp_check]
    exact clamp01 _ (add_nonneg (sat_nonneg _ _ (by norm_num))
      (mul_nonneg (sat_nonneg _ _ (by norm_num)) (by norm_num)))
  · simp only [milestonesSignal, milestones_check]
    exact clamp01 _ (add_nonneg (sat_nonneg _ _ (by norm_num))
      (ite_bool_nonneg _ _ _ (by norm_num) le_rfl))
  · simp only [deliverablesSignal, deliverables_check]
    exact clamp01 _ (add_nonneg (sat_nonneg _ _ (by norm_num))
      (ite_bool_nonneg _ _ _ (by norm_num) le_rfl))
  · simp only [ganttSignal, gantt_check]
    exact sat01 _ 4 (by norm_num)
  · simp only [riskSignal, risk_check]
    exact clamp01 _ (add_nonneg (sat_nonneg _ _ (by norm_num))
      (ite_bool_nonneg _ _ _ (by norm_num) le_rfl))
  · simp only [consortiumSignal, consortium_check]
    exact clamp01 _ (add_nonneg (sat_nonneg _ _ (by norm_num))
      (ite_bool_nonneg _ _ _ (by norm_num) le_rfl))
  · simp only [budgetSignal, budget_check]
    exact sat01 _ 5 (by norm_num)
  · simp only [managementSignal, management_check]
    exact sat01 _ 4 (by norm_num)

/-- Witness for C2 at the `kpi_table` signal on a concrete document. -/
theorem c2_confidence_bounds_witness :
    0 ≤ (kpiSignal.check "KPI %".data).confidence ∧
      (kpiSignal.check "KPI %".data).confidence ≤ 1 :=
  c2_confidence_bounds kpiSignal (by simp [SIGNALS]) "KPI %".data

-- ---------------------------------------------------------------------------
-- Claim C3
-- ---------------------------------------------------------------------------

/-- C3: for every signal in `SIGNALS` and every document, the evidence
list has at most 3 entries, each at most 120 characters, with no two
entries equal. -/
theorem c3_evidence_cap :
    ∀ s ∈ SIGNALS, ∀ d : List Char,
      (s.check d).evidence.length ≤ 3 ∧ (s.check d).evidence.Nodup ∧
        ∀ e ∈ (s.check d).evidence, e.length ≤ 120 := by
  intro s hs d
  simp only [SIGNALS, List.mem_cons, List.not_mem_nil, or_false] at hs
  have key : ∀ pats : List Pat,
      (collectEvidence d pats).length ≤ 3 ∧ (collectEvidence d pats).Nodup ∧
        ∀ e ∈ collectEvidence d pats, e.length ≤ 120 := by
    intro pats
    obtain ⟨h1, h2, h3⟩ := collectEvidence_props d pats
    exact ⟨h2, h1, h3⟩
  rcases hs with rfl | rfl | rfl | rfl | rfl | rfl | rfl | rfl | rfl | rfl | rfl |
    rfl | rfl | rfl | rfl | rfl | rfl | rfl | rfl | rfl | rfl | rfl
  · simp only [objectivesSignal, objectives_check]
    exact key [objP1, objP2, objP3, objP4]
  · simp only [trlSignal, trl_check]
    exact key [trlP3, trlP1, trlP2]
  · simp only [methodologySignal, methodology_check]
    exact key [methP1, methP3, methP4, methP2]
  · simp only [sotaSignal, sota_check]
    exact key [sotaP3, sotaP6, sotaP1, sotaP2]
  · simp only [noveltySignal, novelty_check]
    exact key [novP1, novP3, novP5, novP2]
  · simp only [successSignal, success_check]
    exact key [succP2, succP3, succP4, succP6]
  · simp only [alternativeSignal, alternative_check]
    exact key [altP1, altP2, altP3, altP4]
  · simp only [outcomesSignal, outcomes_check]
    exact key [outP2, outP3, outP6, outP1]
  · simp only [kpiSignal, kpi_check]
    exact key [kpiP1, kpiP2, kpiP3, kpiP6]
  · simp only [exploitationSignal, exploitation_check]
    exact key [expP7, expP3, expP2, expP6]
  · simp only [disseminationSignal, dissemination_check]
    exact key [dissP5, dissP6, dissP4, dissP1]
  · simp only [stakeholdersSignal, stakeholders_check]
    exact key [stakP1, stakP2, stakP3, stakP4]
  · simp only [openAccessSignal, openAccess_check]
    exact key [oaP7, oaP3, oaP2, oaP1]
  · simp only [dmpSignal, dmp_check]
    exact key [dmpP4, dmpP3, dmpP2, dmpP1]
  · simp only [wpSignal, wp_check]
    exact key [wpP3, wpP4, wpP2, wpP1]
  · simp only [milestonesSignal, milestones_check]
    exact key [msP3, msP4, msP1, msP2]
  · simp only [deliverablesSignal, deliverables_check]
    exact key [delP4, delP3, delP1, delP2]
  · simp only [ganttSignal, gantt_check]
    exact key [ganttP1, ganttP2, ganttP4, ganttP6]
  · simp only [riskSignal, risk_check]
    exact key [riskP2, riskP5, riskP3, riskP4]
  · simp only [consortiumSignal, consortium_check]
    exact key [consP3, consP5, consP4, consP1]
  · simp only [budgetSignal, budget_check]
    exact key [budP4, budP2, budP1, budP3]
  · simp only [managementSignal, management_check]
    exact key [mgmtP1, mgmtP2, mgmtP5, mgmtP4]

/-- Witness for C3 at the `sota_gap_identified` signal on a concrete
document. -/
theorem c3_evidence_cap_witness :
    (sotaSignal.check "gap gap\ngap2".data).evidence.length ≤ 3 ∧
      (sotaSignal.check "gap gap\ngap2".data).evidence.Nodup ∧
      ∀ e ∈ (sotaSignal.check "gap gap\ngap2".data).evidence, e.length ≤ 120 :=
  c3_evidence_cap sotaSignal (by simp [SIGNALS]) "gap gap\ngap2".data

-- ---------------------------------------------------------------------------
-- Claim C10
-- ---------------------------------------------------------------------------

theorem countMatches_singleton (d : List Char) (q : Pat) :
    countMatches d [q] = countPat q d := by
  simp [countMatches]

theorem countPat_le_countMatches (d : List Char) (q : Pat) :
    ∀ pats : List Pat, q ∈ pats → countPat q d ≤ countMatches d pats := by
  intro pats
  induction pats with
  | nil => intro h; simp at h
  | cons p ps ih =>
    intro h
    simp only [countMatches, List.map_cons, List.sum_cons]
    rcases List.mem_cons.mp h with rfl | h2
    · exact Nat.le_add_right _ _
    · have := ih h2
      simp only [countMatches] at this
      omega

theorem pos_of_single (d : List Char) (q : Pat) (pats : List Pat) (hq : q ∈ pats)
    (h : decide (0 < countMatches d [q]) = true) : 0 < countMatches d pats := by
  have h0 : 0 < countPat q d := by
    have h1 := of_decide_eq_true h
    rwa [countMatches_singleton] at h1
  have h1 := countPat_le_countMatches d q pats hq
  omega

theorem pos_ite_bool (b : Bool) (x : ℚ) (h : 0 < if b then x else 0) : b = true := by
  cases b
  · simp at h
  · rfl

theorem pos_ite_bool2 (b₁ b₂ : Bool) (x y : ℚ)
    (h : 0 < if b₁ then x else if b₂ then y else 0) : b₁ = true ∨ b₂ = true := by
  cases b₁
  · cases b₂
    · simp at h
    · exact Or.inr rfl
  · exact Or.inl rfl

theorem bonus_found_iff (n : ℕ) (S : ℚ) (hS : 0 < S) (bonus : ℚ)
    (hb0 : 0 ≤ bonus) (hb : 0 < bonus → 0 < n) :
    (decide (0 < n) = true) ↔ 0 < min 1 (sat (n : ℚ) S + bonus) := by
  rw [decide_eq_true_iff, clamp_pos_iff]
  constructor
  · intro h
    have h1 := (sat_pos_iff n S hS).mpr h
    linarith
  · intro h
    rcases lt_or_eq_of_le hb0 with hpos | hzero
    · exact hb hpos
    · rw [← hzero, add_zero] at h
      exact (sat_pos_iff n S hS).mp h

theorem wpDistinct_pos (d : List Char) (h : 0 < wpDistinct d) :
    0 < countPat wpP1 d := by
  unfold wpDistinct at h
  unfold countPat
  cases hm : matchesOf wpP1 d with
  | nil => rw [hm] at h; simp at h
  | cons a l => simp

/-- C10: implicit invariant of the check of every signal: for every signal
in `SIGNALS` and every document, `found = true` iff `confidence > 0`
(a bonus never produces positive confidence with `found = false`). -/
theorem c10_found_iff_confidence :
    ∀ s ∈ SIGNALS, ∀ d : List Char,
      (s.check d).found = true ↔ 0 < (s.check d).confidence := by
  intro s hs d
  simp only [SIGNALS, List.mem_cons, List.not_mem_nil, or_false] at hs
  rcases hs with rfl | rfl | rfl | rfl | rfl | rfl | rfl | rfl | rfl | rfl | rfl |
    rfl | rfl | rfl | rfl | rfl | rfl | rfl | rfl | rfl | rfl | rfl
  · simp only [objectivesSignal, objectives_check]
    exact found_iff_sat _ 5 (by norm_num)
  · simp only [trlSignal, trl_check]
    constructor
    · intro h
      have hb := of_decide_eq_true h
      split
      · rw [clamp_pos_iff]
        have h1 := (sat_pos_iff (countMatches d [trlP1, trlP2]) 3 (by norm_num)).mpr hb
        linarith
      · exact (sat_pos_iff _ 3 (by norm_num)).mpr hb
    · intro h
      rw [decide_eq_true_iff]
      cases hp : decide (0 < countMatches d [trlP3]) with
      | true =>
        have h3 : 0 < countMatches d [trlP3] := of_decide_eq_true hp
        rw [countMatches_singleton] at h3
        obtain ⟨p', s', hr, hm⟩ := countPat_pos_inv trlP3 d h3
        have hm1 : (matchTop trlP1 p' s').isSome :=
          matchTop_seq_head trlP1rx trlProgTail true false p' s' hm
        have h1 : 0 < countPat trlP1 d := countPat_pos trlP1 d p' s' hr hm1
        have hle := countPat_le_countMatches d trlP1 [trlP1, trlP2] (by simp)
        omega
      | false =>
        rw [hp] at h
        simp only [Bool.false_eq_true, if_false] at h
        exact (sat_pos_iff _ 3 (by norm_num)).mp h
  · simp only [methodologySignal, methodology_check]
    exact found_iff_sat _ 8 (by norm_num)
  · simp only [sotaSignal, sota_check]
    exact found_iff_sat _ 6 (by norm_num)
  · simp only [noveltySignal, novelty_check]
    exact found_iff_sat _ 4 (by norm_num)
  · simp only [successSignal, success_check]
    exact found_iff_sat _ 5 (by norm_num)
  · simp only [alternativeSignal, alternative_check]
    exact found_iff_sat _ 3 (by norm_num)
  · simp only [outcomesSignal, outcomes_check]
    exact found_iff_sat _ 5 (by norm_num)
  · simp only [kpiSignal, kpi_check]
    refine bonus_found_iff _ 6 (by norm_num) _
      (ite_bool_nonneg _ _ _ (by norm_num)
        (ite_bool_nonneg _ _ _ (by norm_num) le_rfl)) ?_
    intro hpos
    rcases pos_ite_bool2 _ _ _ _ hpos with hc | hc
    · obtain ⟨h2, -⟩ := Bool.and_eq_true_iff.mp hc
      exact pos_of_single d kpiP2 _ (by simp) h2
    · exact pos_of_single d kpiP1 _ (by simp) hc
  · simp only [exploitationSignal, exploitation_check]
    exact found_iff_sat _ 5 (by norm_num)
  · simp only [disseminationSignal, dissemination_check]
    exact found_iff_sat _ 7 (by norm_num)
  · simp only [stakeholdersSignal, stakeholders_check]
    exact found_iff_sat _ 5 (by norm_num)
  · simp only [openAccessSignal, openAccess_check]
    refine bonus_found_iff _ 4 (by norm_num) _
      (ite_bool_nonneg _ _ _ (by norm_num) le_rfl) ?_
    intro hpos
    have hc := pos_ite_bool _ _ hpos
    obtain ⟨h2, -⟩ := Bool.and_eq_true_iff.mp hc
    exact pos_of_single d oaP1 _ (by simp) h2
  · simp only [dmpSignal, dmp_check]
    refine bonus_found_iff _ 3 (by norm_num) _
      (ite_bool_nonneg _ _ _ (by norm_num) le_rfl) ?_
    intro hpos
    have hc := pos_ite_bool _ _ hpos
    exact pos_of_single d dmpP3 _ (by simp) hc
  · simp only [wpSignal, wp_check]
    refine bonus_found_iff _ 10 (by norm_num) _
      (mul_nonneg (sat_nonneg _ _ (by norm_num)) (by norm_num)) ?_
    intro hpos
    have hs4 : 0 < sat ((wpDistinct d : ℕ) : ℚ) 4 := by
      by_contra hc
      have := sat_nonneg ((wpDistinct d : ℕ) : ℚ) 4 (by norm_num)
      have hz : sat ((wpDistinct d : ℕ) : ℚ) 4 = 0 := le_antisymm (not_lt.mp hc) this
      rw [hz] at hpos
      norm_num at hpos
    have hd : 0 < wpDistinct d := (sat_pos_iff _ 4 (by norm_num)).mp hs4
    have h1 := wpDistinct_pos d hd
    have hle := countPat_le_countMatches d wpP1 [wpP1, wpP2, wpP3, wpP4] (by simp)
    omega
  · simp only [milestonesSignal, milestones_check]
    refine bonus_found_iff _ 5 (by norm_num) _
      (ite_bool_nonneg _ _ _ (by norm_num) le_rfl) ?_
    intro hpos
    have hc := pos_ite_bool _ _ hpos
    exact pos_of_single d msP3 _ (by simp) hc
  · simp only [deliverablesSignal, deliverables_check]
    refine bonus_found_iff _ 6 (by norm_num) _
      (ite_bool_nonneg _ _ _ (by norm_num) le_rfl) ?_
    intro hpos
    have hc := pos_ite_bool _ _ hpos
    exact pos_of_single d delP4 _ (by simp) hc
  · simp only [ganttSignal, gantt_check]
    exact found_iff_sat _ 4 (by norm_num)
  · simp only [riskSignal, risk_check]
    refine bonus_found_iff _ 6 (by norm_num) _
      (ite_bool_nonneg _ _ _ (by norm_num) le_rfl) ?_
    intro hpos
    have hc := pos_ite_bool _ _ hpos
    obtain ⟨h2, -⟩ := Bool.and_eq_true_iff.mp hc
    exact pos_of_single d riskP3 _ (by simp) h2
  · simp only [consortiumSignal, consortium_check]
    refine bonus_found_iff _ 6 (by norm_num) _
      (ite_bool_nonneg _ _ _ (by norm_num) le_rfl) ?_
    intro hpos
    have hc := pos_ite_bool _ _ hpos
    rcases Bool.or_eq_true_iff.mp hc with h2 | h2
    · exact pos_of_single d consP3 _ (by simp) h2
    · exact pos_of_single d consP5 _ (by simp) h2
  · simp only [budgetSignal, budget_check]
    exact found_iff_sat _ 5 (by norm_num)
  · simp only [managementSignal, management_check]
    exact found_iff_sat _ 4 (by norm_num)

/-- Witness for C10 at the `trl_mentioned` signal on a concrete
document. -/
theorem c10_found_iff_confidence_witness :
    (trlSignal.check "TRL 3 --> TRL 7".data).found = true ↔
      0 < (trlSignal.check "TRL 3 --> TRL 7".data).confidence :=
  c10_found_iff_confidence trlSignal (by simp [SIGNALS]) "TRL 3 --> TRL 7".data

-- ---------------------------------------------------------------------------
-- Claim C5
-- ---------------------------------------------------------------------------

/-- C5: scoring is deterministic: the pipeline and every signal check
are pure functions of the document (each invocation builds fresh
global-flag regex state, so the embedding has no hidden state), hence
two runs on the same document give equal results. -/
theorem c5_determinism :
    ∀ d : List Char, scoreReport d = scoreReport d ∧
      ∀ s ∈ SIGNALS, s.check d = s.check d :=
  fun _ => ⟨rfl, fun _ _ => rfl⟩

/-- Witness for C5 at the `trl_mentioned` signal on a concrete document. -/
theorem c5_determinism_witness :
    scoreReport "TRL 3".data = scoreReport "TRL 3".data ∧
      trlSignal.check "TRL 3".data = trlSignal.check "TRL 3".data :=
  ⟨(c5_determinism "TRL 3".data).1,
    (c5_determinism "TRL 3".data).2 trlSignal (by simp [SIGNALS])⟩

-- ---------------------------------------------------------------------------
-- Claim C6
-- ---------------------------------------------------------------------------

theorem sfc_excellence : signalsForCriterion .excellence =
    [objectivesSignal, trlSignal, methodologySignal, sotaSignal, noveltySignal,
     successSignal, alternativeSignal] := rfl

theorem sfc_impact : signalsForCriterion .impact =
    [outcomesSignal, kpiSignal, exploitationSignal, disseminationSignal,
     stakeholdersSignal, openAccessSignal, dmpSignal] := rfl

theorem sfc_implementation : signalsForCriterion .implementation =
    [wpSignal, milestonesSignal, deliverablesSignal, ganttSignal, riskSignal,
     consortiumSignal, budgetSignal, managementSignal] := rfl

theorem requiredFrac_excellence : requiredFrac .excellence = 18 / 25 := by
  rw [requiredFrac, sfc_excellence]
  norm_num [objectivesSignal, trlSignal, methodologySignal, sotaSignal,
    noveltySignal, successSignal, alternativeSignal]

theorem requiredFrac_impact : requiredFrac .impact = 41 / 50 := by
  rw [requiredFrac, sfc_impact]
  norm_num [outcomesSignal, kpiSignal, exploitationSignal, disseminationSignal,
    stakeholdersSignal, openAccessSignal, dmpSignal]

theorem requiredFrac_implementation : requiredFrac .implementation = 19 / 25 := by
  rw [requiredFrac, sfc_implementation]
  norm_num [wpSignal, milestonesSignal, deliverablesSignal, ganttSignal,
    riskSignal, consortiumSignal, budgetSignal, managementSignal]

theorem criterionScore_num (fr : ℚ) (z : ℤ) (h1 : (z : ℚ) ≤ fr * 10 + 1 / 2)
    (h2 : fr * 10 + 1 / 2 < z + 1) : criterionScore fr = (z : ℚ) / 2 := by
  rw [criterionScore, Int.floor_eq_iff.mpr ⟨h1, h2⟩]

/-- C6: for each criterion, a confidence assignment giving 1 to every
`requiredForThreshold` signal and 0 to the others yields a criterion
score of at least 3.0 under the spec aggregation (weighted sum × 5,
rounded to the nearest 0.5 half-up); equivalently the weights of the
required signals sum to at least 0.6. -/
theorem c6_minimal_pass :
    ∀ c ∈ CRITERIA, 3 ≤ criterionScore (requiredFrac c) ∧ 3 / 5 ≤ requiredFrac c := by
  intro c hc
  simp only [CRITERIA, List.mem_cons, List.not_mem_nil, or_false] at hc
  rcases hc with rfl | rfl | rfl
  · rw [requiredFrac_excellence,
      criterionScore_num (18 / 25) 7 (by norm_num) (by norm_num)]
    norm_num
  · rw [requiredFrac_impact,
      criterionScore_num (41 / 50) 8 (by norm_num) (by norm_num)]
    norm_num
  · rw [requiredFrac_implementation,
      criterionScore_num (19 / 25) 8 (by norm_num) (by norm_num)]
    norm_num

/-- Witness for C6 at the `excellence` criterion. -/
theorem c6_minimal_pass_witness :
    3 ≤ criterionScore (requiredFrac .excellence) ∧
      3 / 5 ≤ requiredFrac .excellence :=
  c6_minimal_pass .excellence (by simp [CRITERIA])

-- ---------------------------------------------------------------------------
-- Claim C8
-- ---------------------------------------------------------------------------

theorem find?_id_self : ∀ (l : List Signal),
    (l.map (fun s => s.id)).Nodup →
    ∀ s ∈ l, l.find? (fun t => t.id == s.id) = some s := by
  intro l
  induction l with
  | nil => intro _ s hs; simp at hs
  | cons a l ih =>
    intro hnd s hs
    rw [List.map_cons, List.nodup_cons] at hnd
    rcases List.mem_cons.mp hs with rfl | hmem
    · rw [List.find?_cons_of_pos _ (by simp)]
    · have hne : a.id ≠ s.id := fun he => hnd.1 (he ▸ List.mem_map_of_mem _ hmem)
      rw [List.find?_cons_of_neg _ (by simp [hne])]
      exact ih hnd.2 s hmem

theorem signal_ids_nodup : (SIGNALS.map (fun s => s.id)).Nodup := by decide

/-- C8: `signalById` with an unknown id fails with a "signal not
found" error and with a known id returns the unique signal bearing it;
`signalsForCriterion c` returns exactly the signals whose criterion is
`c`, in `SIGNALS` declaration order. -/
theorem c8_registry_lookup :
    (∀ id : String, (∀ s ∈ SIGNALS, s.id ≠ id) →
      signalById id = .error ("Signal not found: \"" ++ id ++ "\"")) ∧
    (∀ s ∈ SIGNALS, signalById s.id = .ok s) ∧
    (∀ c : CriterionId,
      (∀ s : Signal, s ∈ signalsForCriterion c ↔ s ∈ SIGNALS ∧ s.criterion = c) ∧
      List.Sublist (signalsForCriterion c) SIGNALS) := by
  refine ⟨?_, ?_, ?_⟩
  · intro id h
    have hn : SIGNALS.find? (fun s => s.id == id) = none :=
      List.find?_eq_none.mpr (fun s hs => by simp only [beq_iff_eq]; exact h s hs)
    rw [signalById, hn]
  · intro s hs
    rw [signalById, find?_id_self SIGNALS signal_ids_nodup s hs]
  · intro c
    constructor
    · intro s
      rw [signalsForCriterion, List.mem_filter]
      simp [beq_iff_eq]
    · exact List.filter_sublist SIGNALS

/-- Witness for C8: an unknown id errors; a known id returns its signal. -/
theorem c8_registry_lookup_witness :
    signalById "no_such_signal" =
      .error ("Signal not found: \"no_such_signal\"") ∧
      signalById "kpi_table" = .ok kpiSignal := by
  refine ⟨c8_registry_lookup.1 "no_such_signal" (by decide), ?_⟩
  exact c8_registry_lookup.2.1 kpiSignal (by simp [SIGNALS])

-- ---------------------------------------------------------------------------
-- Claim C1
-- ---------------------------------------------------------------------------

theorem weightTotal_bad_excellence :
    weightTotal badRegistry .excellence = 1 / 2 := by
  have hf : badRegistry.filter (fun s => s.criterion == CriterionId.excellence) =
      [badSignal] := rfl
  rw [weightTotal, hf]
  norm_num [badSignal]

theorem weightTotal_bad_impact : weightTotal badRegistry .impact = 1 := by
  have hf : badRegistry.filter (fun s => s.criterion == CriterionId.impact) =
      [unitSignal .impact "u_impact"] := rfl
  rw [weightTotal, hf]
  norm_num [unitSignal]

theorem weightTotal_bad_implementation :
    weightTotal badRegistry .implementation = 1 := by
  have hf : badRegistry.filter
      (fun s => s.criterion == CriterionId.implementation) =
      [unitSignal .implementation "u_implementation"] := rfl
  rw [weightTotal, hf]
  norm_num [unitSignal]

/-- C1 counterexample: a registry whose `excellence` weights sum to
`0.5` (more than `0.01` from `1.0`) does **not** fail construction: the
module load returns the registry unchanged, emitting only a
`console.warn` message (the source comment says "does not throw in
production"). -/
theorem c1_counterexample :
    (1 / 100 : ℚ) < |weightTotal badRegistry .excellence - 1| ∧
      registryLoad badRegistry =
        (["[GrantCraft] Signal weights for criterion \"excellence\" do not sum to 1.00"],
          badRegistry) := by
  have habs : |weightTotal badRegistry .excellence - 1| = 1 / 2 := by
    rw [weightTotal_bad_excellence]
    rw [abs_sub_comm, abs_of_nonneg (by norm_num : (0 : ℚ) ≤ 1 - 1 / 2)]
    norm_num
  refine ⟨by rw [habs]; norm_num, ?_⟩
  rw [registryLoad]
  have hw : loadWarnings badRegistry =
      ["[GrantCraft] Signal weights for criterion \"excellence\" do not sum to 1.00"] := by
    rw [loadWarnings, CRITERIA]
    simp only [List.filterMap_cons, List.filterMap_nil]
    rw [if_pos (by rw [habs]; norm_num),
      if_neg (by rw [weightTotal_bad_impact]; norm_num),
      if_neg (by rw [weightTotal_bad_implementation]; norm_num)]
    rfl
  rw [hw]

/-- C1 (amended): for every criterion of the actual registry the
weights sum within `0.01` of `1.0`; loading a registry never fails
(the registry is returned as-is), and a registry violating the bound
for some criterion produces a non-empty warning list at load time
instead of failing construction. -/
theorem c1_weight_invariant :
    (∀ c ∈ CRITERIA, |weightTotal SIGNALS c - 1| ≤ 1 / 100) ∧
    (∀ sigs : List Signal, (registryLoad sigs).2 = sigs) ∧
    (∀ sigs : List Signal, ∀ c ∈ CRITERIA,
      1 / 100 < |weightTotal sigs c - 1| → (registryLoad sigs).1 ≠ []) := by
  refine ⟨?_, fun _ => rfl, ?_⟩
  · intro c hc
    have hexc : weightTotal SIGNALS .excellence = 1 := by
      have hf : SIGNALS.filter (fun s => s.criterion == CriterionId.excellence) =
          [objectivesSignal, trlSignal, methodologySignal, sotaSignal,
           noveltySignal, successSignal, alternativeSignal] := rfl
      rw [weightTotal, hf]
      norm_num [objectivesSignal, trlSignal, methodologySignal, sotaSignal,
        noveltySignal, successSignal, alternativeSignal]
    have himp : weightTotal SIGNALS .impact = 1 := by
      have hf : SIGNALS.filter (fun s => s.criterion == CriterionId.impact) =
          [outcomesSignal, kpiSignal, exploitationSignal, disseminationSignal,
           stakeholdersSignal, openAccessSignal, dmpSignal] := rfl
      rw [weightTotal, hf]
      norm_num [outcomesSignal, kpiSignal, exploitationSignal,
        disseminationSignal, stakeholdersSignal, openAccessSignal, dmpSignal]
    have himpl : weightTotal SIGNALS .implementation = 1 := by
      have hf : SIGNALS.filter
          (fun s => s.criterion == CriterionId.implementation) =
          [wpSignal, milestonesSignal, deliverablesSignal, ganttSignal,
           riskSignal, consortiumSignal, budgetSignal, managementSignal] := rfl
      rw [weightTotal, hf]
      norm_num [wpSignal, milestonesSignal, deliverablesSignal, ganttSignal,
        riskSignal, consortiumSignal, budgetSignal, managementSignal]
    simp only [CRITERIA, List.mem_cons, List.not_mem_nil, or_false] at hc
    rcases hc with rfl | rfl | rfl
    · rw [hexc]; norm_num
    · rw [himp]; norm_num
    · rw [himpl]; norm_num
  · intro sigs c hc hviol hnil
    have hmem : ("[GrantCraft] Signal weights for criterion \"" ++ critName c ++
        "\" do not sum to 1.00") ∈ loadWarnings sigs :=
      List.mem_filterMap.mpr ⟨c, hc, by rw [if_pos hviol]⟩
    rw [show (registryLoad sigs).1 = loadWarnings sigs from rfl] at hnil
    rw [hnil] at hmem
    simp at hmem

/-- Witness for C1 (amended) at the `excellence` criterion and the
misweighted test registry. -/
theorem c1_weight_invariant_witness :
    |weightTotal SIGNALS .excellence - 1| ≤ 1 / 100 ∧
      (registryLoad badRegistry).2 = badRegistry ∧
      (registryLoad badRegistry).1 ≠ [] := by
  refine ⟨c1_weight_invariant.1 .excellence (by simp [CRITERIA]),
    c1_weight_invariant.2.1 badRegistry, ?_⟩
  refine c1_weight_invariant.2.2 badRegistry .excellence (by simp [CRITERIA]) ?_
  rw [weightTotal_bad_excellence]
  rw [abs_sub_comm, abs_of_nonneg (by norm_num : (0 : ℚ) ≤ 1 - 1 / 2)]
  norm_num

-- ---------------------------------------------------------------------------
-- Claim C7
-- ---------------------------------------------------------------------------

/-- Scenario document: a KPI table with `Baseline` and `Target` column
headers, plus the words `KPI` and `%`. -/
def kpiTableDoc : List Char := "|Indicator|\n|Baseline|\n|Target|\nKPI %".data

/-- The same document with the table removed (`KPI` and `%` kept). -/
def kpiNoTableDoc : List Char := "KPI %".data

/-- A table-free document already saturating the `kpi_table` signal
(six `KPI` mentions), with `%` present. -/
def kpiSatDoc : List Char := "KPI KPI KPI KPI KPI KPI %".data

/-- `kpiSatDoc` with a `Baseline`/`Target` table prepended. -/
def kpiBigDoc : List Char := "|Indicator|\n|Baseline|\n|Target|\n".data ++ kpiSatDoc

theorem kpi_conf_noTable : (kpi_check kpiNoTableDoc).confidence = 1 / 6 := by
  simp only [kpi_check]
  rw [show countMatches kpiNoTableDoc
      [kpiP1, kpiP2, kpiP3, kpiP4, kpiP5, kpiP6, kpiP7] = 1 from by decide,
    show countMatches kpiNoTableDoc [kpiP1] = 0 from by decide,
    show countMatches kpiNoTableDoc [kpiP2] = 0 from by decide,
    show countMatches kpiNoTableDoc [kpiP3] = 0 from by decide]
  norm_num [sat, min_def]

theorem kpi_conf_table : (kpi_check kpiTableDoc).confidence = 29 / 30 := by
  simp only [kpi_check]
  rw [show countMatches kpiTableDoc
      [kpiP1, kpiP2, kpiP3, kpiP4, kpiP5, kpiP6, kpiP7] = 4 from by decide,
    show countMatches kpiTableDoc [kpiP1] = 1 from by decide,
    show countMatches kpiTableDoc [kpiP2] = 1 from by decide,
    show countMatches kpiTableDoc [kpiP3] = 1 from by decide]
  norm_num [sat, min_def]

theorem kpi_conf_sat : (kpi_check kpiSatDoc).confidence = 1 := by
  simp only [kpi_check]
  rw [show countMatches kpiSatDoc
      [kpiP1, kpiP2, kpiP3, kpiP4, kpiP5, kpiP6, kpiP7] = 6 from by decide,
    show countMatches kpiSatDoc [kpiP1] = 0 from by decide,
    show countMatches kpiSatDoc [kpiP2] = 0 from by decide,
    show countMatches kpiSatDoc [kpiP3] = 0 from by decide]
  norm_num [sat, min_def]

theorem kpi_conf_big : (kpi_check kpiBigDoc).confidence = 1 := by
  simp only [kpi_check]
  rw [show countMatches kpiBigDoc
      [kpiP1, kpiP2, kpiP3, kpiP4, kpiP5, kpiP6, kpiP7] = 9 from by decide,
    show countMatches kpiBigDoc [kpiP2] = 1 from by decide,
    show countMatches kpiBigDoc [kpiP3] = 1 from by decide]
  norm_num [sat, min_def]

/-- C7 counterexample: on a document already saturating the signal
(six `KPI` mentions plus `%`), prepending the `Baseline`/`Target` table
does **not** make the confidence strictly greater — both clamp to 1.0,
refuting the claim for this table / table-removed document pair. -/
theorem c7_counterexample :
    kpiBigDoc = "|Indicator|\n|Baseline|\n|Target|\n".data ++ kpiSatDoc ∧
      0 < countMatches kpiBigDoc [kpiP2] ∧ 0 < countMatches kpiBigDoc [kpiP3] ∧
      kpiSatDoc = "KPI KPI KPI KPI KPI KPI %".data ∧
      (kpi_check kpiBigDoc).confidence = (kpi_check kpiSatDoc).confidence := by
  refine ⟨rfl, by decide, by decide, rfl, ?_⟩
  rw [kpi_conf_big, kpi_conf_sat]

/-- C7 (amended): whenever both the `Baseline` and the `Target`
column-header patterns match a document, the `kpi_table` confidence
includes the full 0.3 structural bonus (it equals
`min(1, sat(n, 6) + 0.3)`); and on the non-saturated scenario pair —
table document versus the same document with the table removed but
`KPI` and `%` kept — the confidence with the table is strictly
greater. -/
theorem c7_kpi_bonus :
    (∀ d : List Char, 0 < countMatches d [kpiP2] → 0 < countMatches d [kpiP3] →
      (kpi_check d).confidence =
        min 1 (sat ((countMatches d
          [kpiP1, kpiP2, kpiP3, kpiP4, kpiP5, kpiP6, kpiP7] : ℕ) : ℚ) 6 + 0.3)) ∧
    (kpi_check kpiNoTableDoc).confidence < (kpi_check kpiTableDoc).confidence := by
  constructor
  · intro d h2 h3
    simp only [kpi_check]
    rw [if_pos (by simp [h2, h3])]
  · rw [kpi_conf_noTable, kpi_conf_table]
    norm_num

/-- Witness for C7 (amended) at the scenario table document. -/
theorem c7_kpi_bonus_witness :
    (kpi_check kpiTableDoc).confidence =
      min 1 (sat ((countMatches kpiTableDoc
        [kpiP1, kpiP2, kpiP3, kpiP4, kpiP5, kpiP6, kpiP7] : ℕ) : ℚ) 6 + 0.3) :=
  c7_kpi_bonus.1 kpiTableDoc (by decide) (by decide)

-- ---------------------------------------------------------------------------
-- Claim C9
-- ---------------------------------------------------------------------------

/-- First scenario substring. -/
def objScenarioS1 : List Char := "O1: To develop a new sensor".data

/-- Second scenario substring. -/
def objScenarioS2 : List Char := "O2: To validate at 3 pilot sites".data

/-- A document containing both scenario substrings, each embedded
directly after a word character (`x`). -/
def objBadDoc : List Char :=
  "xO1: To develop a new sensor and xO2: To validate at 3 pilot sites".data

/-- C9 counterexample: a document containing both literal scenario
substrings on which `objectives_listed` nevertheless reports
`found = false` and zero confidence — the substrings occur right after
a word character, so the `\bO[1-9]` word boundary fails and no other
objective pattern matches. -/
theorem c9_counterexample :
    objBadDoc = "x".data ++ objScenarioS1 ++ (" and x".data ++ objScenarioS2) ∧
      (objectives_check objBadDoc).found = false ∧
      (objectives_check objBadDoc).confidence = 0 := by
  refine ⟨by decide, by decide, ?_⟩
  simp only [objectives_check]
  rw [show countMatches objBadDoc [objP1, objP2, objP3, objP4] = 0 from by decide]
  norm_num [sat]

/-- The `\bO[1-9]\d*\s*[.:)—–\-]/i` pattern matches at the start of
`"O1: To develop a new sensor" ++ r` whenever the previous character is
not a word character. -/
theorem objP1_matches (p : Option Char) (hp : isWordO p = false) (r : List Char) :
    (matchTop objP1 p (objScenarioS1 ++ r)).isSome = true := by
  have hw : wordBoundary p (objScenarioS1 ++ r) = true := by
    cases p with
    | none => rfl
    | some c =>
      have hc : isWordChar c = false := hp
      change (isWordChar c != true) = true
      rw [hc]
      rfl
  change (if wordBoundary p (objScenarioS1 ++ r) then
      mrunO true false (cat [chr 'o', d19, digs, ws,
        cls ['.', ':', ')', '—', '–', '-']]) p (objScenarioS1 ++ r)
        (fun _ s' => some s') else none).isSome = true
  rw [hw, if_pos rfl]
  rfl

/-- C9 (amended): for any document of the form
`u ++ "O1: To develop a new sensor" ++ v ++ "O2: To validate at 3 pilot sites" ++ w`
in which the first substring is preceded by the start of the text or a
non-word character, the `objectives_listed` check returns
`found = true` with positive confidence. -/
theorem c9_objectives_scenario (u v w : List Char)
    (hu : ∀ c, u.getLast? = some c → isWordChar c = false) :
    (objectives_check (u ++ (objScenarioS1 ++ (v ++ (objScenarioS2 ++ w))))).found
        = true ∧
      0 < (objectives_check
        (u ++ (objScenarioS1 ++ (v ++ (objScenarioS2 ++ w))))).confidence := by
  have hp : isWordO (lastOr none u) = false := by
    cases hl : u.getLast? with
    | none =>
      have he : lastOr none u = none := by unfold lastOr; rw [hl]
      rw [he]; rfl
    | some c =>
      have he : lastOr none u = some c := by unfold lastOr; rw [hl]
      rw [he]
      exact hu c hl
  have hreach : Reach none (u ++ (objScenarioS1 ++ (v ++ (objScenarioS2 ++ w))))
      (lastOr none u) (objScenarioS1 ++ (v ++ (objScenarioS2 ++ w))) :=
    reach_append u none _
  have h1 : 0 < countPat objP1 (u ++ (objScenarioS1 ++ (v ++ (objScenarioS2 ++ w)))) :=
    countPat_pos objP1 _ _ _ hreach
      (objP1_matches (lastOr none u) hp (v ++ (objScenarioS2 ++ w)))
  have hle := countPat_le_countMatches
    (u ++ (objScenarioS1 ++ (v ++ (objScenarioS2 ++ w)))) objP1
    [objP1, objP2, objP3, objP4] (by simp)
  constructor
  · simp only [objectives_check]
    exact decide_eq_true (by omega)
  · simp only [objectives_check]
    exact (sat_pos_iff _ 5 (by norm_num)).mpr (by omega)

/-- Witness for C9 (amended): the two substrings separated by a
newline, starting at the beginning of the document. -/
theorem c9_objectives_scenario_witness :
    (objectives_check ([] ++ (objScenarioS1 ++
        ("\n".data ++ (objScenarioS2 ++ []))))).found = true ∧
      0 < (objectives_check ([] ++ (objScenarioS1 ++
        ("\n".data ++ (objScenarioS2 ++ []))))).confidence :=
  c9_objectives_scenario [] "\n".data [] (fun c h => by simp at h)

end GrantCraft
